import Mathlib

/-!
Verification development for the gokrb5 Kerberos v5 client core.

This file is a shallow embedding, in Lean 4, of the cryptographic
engine (crypto/EncryptionEngine.go), principal-name salt derivation
(types/PrincipalName.go), AP-REQ unmarshalling (messages/APReq.go) and the
AS/TGS exchange state machines (client package).

Conventions of the embedding:
* Go byte slices are `List Nat` with every element a byte value (< 256);
  Go strings are likewise modelled by their byte sequences (`List Nat`).
* Machine integers are `Nat`/`Int`; a cast to `uint32` is `% 2^32`.
* Fallible Go functions returning `(T, error)` become `Except String T`.
* A Go runtime panic (out-of-range slice index) is modelled by `Option`:
  `none` is a panic, `some r` is a normal return with result `r`.
* External collaborators (ASN.1 codec, KDC transport, keytab, config,
  ticket cache) are parameters of the exchange functions, mirroring the
  treatment the spec gives them, as interfaces.
* Cryptographic primitives from the Go standard library (SHA-1, HMAC,
  AES) and repository crypto not included in the sampled sources
  (n-fold, the AES-CTS enctype implementations, PBKDF2 string-to-key)
  are implemented bit-exactly from their RFCs as the spec directs
  (RFC 3961/3962, FIPS 180-4, FIPS 197); doc comments mark each such
  definition.
-/

/-! ### Byte-string utilities -/

/-- Big-endian interpretation of a byte list as a natural number. -/
def beToNat (b : List Nat) : Nat :=
  b.foldl (fun a x => a * 256 + x % 256) 0

/-- Big-endian encoding of a natural number on `len` bytes (truncating). -/
def natToBe (x : Nat) (len : Nat) : List Nat :=
  (List.range len).map (fun i => x / 256 ^ (len - 1 - i) % 256)

/-- Pointwise XOR of two byte lists (length of the shorter). -/
def xorBytes (a b : List Nat) : List Nat :=
  List.zipWith (fun x y => Nat.xor x y) a b

/-- Fuel-driven worker for `chunkList` (structural recursion keeps it
reducible inside the kernel). -/
def chunkListAux : Nat → Nat → List α → List (List α)
  | 0, _, _ => []
  | _ + 1, _, [] => []
  | fuel + 1, n, x :: xs => (x :: xs).take n :: chunkListAux fuel n ((x :: xs).drop n)

/-- Split a list into consecutive chunks of `n` elements (last chunk may be
shorter); `n = 0` gives `[]`. -/
def chunkList (n : Nat) (l : List α) : List (List α) :=
  if n = 0 then [] else chunkListAux l.length n l

/-! ### SHA-1 (FIPS 180-4), as used by the Go standard library `crypto/sha1` -/

/-- Rotate a 32-bit word left by `n` bits. -/
def rotl32 (x n : Nat) : Nat :=
  (x * 2 ^ n) % 2 ^ 32 + x / 2 ^ (32 - n)

/-- Round function of SHA-1 for round `t`. -/
def sha1F (t b c d : Nat) : Nat :=
  if t < 20 then Nat.lor (Nat.land b c) (Nat.land (Nat.xor b 4294967295) d)
  else if t < 40 then Nat.xor (Nat.xor b c) d
  else if t < 60 then Nat.lor (Nat.lor (Nat.land b c) (Nat.land b d)) (Nat.land c d)
  else Nat.xor (Nat.xor b c) d

/-- Round constant of SHA-1 for round `t`. -/
def sha1K (t : Nat) : Nat :=
  if t < 20 then 1518500249
  else if t < 40 then 1859775393
  else if t < 60 then 2400959708
  else 3395469782

/-- Message-schedule worker: `acc` holds the words produced so far, newest
first, so w[i-3], w[i-8], w[i-14], w[i-16] sit at positions 2, 7, 13, 15. -/
def sha1ExpandGo : Nat → List Nat → List Nat
  | 0, acc => acc.reverse
  | t + 1, acc =>
    sha1ExpandGo t
      (rotl32 (Nat.xor (Nat.xor (acc.getD 2 0) (acc.getD 7 0))
               (Nat.xor (acc.getD 13 0) (acc.getD 15 0))) 1 :: acc)

/-- Message-schedule expansion: extend the 16 block words by `t` more. -/
def sha1Expand (w : List Nat) (t : Nat) : List Nat :=
  sha1ExpandGo t w.reverse

/-- One SHA-1 round on the five-word state. -/
def sha1Round (st : Nat × Nat × Nat × Nat × Nat) (tw : Nat × Nat) : Nat × Nat × Nat × Nat × Nat :=
  let (a, b, c, d, e) := st
  let (t, w) := tw
  let tmp := (rotl32 a 5 + sha1F t b c d + e + sha1K t + w) % 2 ^ 32
  (tmp, a, rotl32 b 30, c, d)

/-- SHA-1 compression function on one 64-byte block. -/
def sha1Compress (h : List Nat) (block : List Nat) : List Nat :=
  let w0 := (chunkList 4 block).map beToNat
  let w := sha1Expand w0 64
  let init := (h.getD 0 0, h.getD 1 0, h.getD 2 0, h.getD 3 0, h.getD 4 0)
  let (a, b, c, d, e) := ((List.range 80).zip w).foldl sha1Round init
  [(h.getD 0 0 + a) % 2 ^ 32, (h.getD 1 0 + b) % 2 ^ 32, (h.getD 2 0 + c) % 2 ^ 32,
   (h.getD 3 0 + d) % 2 ^ 32, (h.getD 4 0 + e) % 2 ^ 32]

/-- Merkle–Damgård padding of SHA-1. -/
def sha1Pad (msg : List Nat) : List Nat :=
  msg ++ [128] ++ List.replicate ((119 - msg.length % 64) % 64) 0 ++ natToBe (msg.length * 8) 8

/-- Full SHA-1 digest (20 bytes) of a byte string. -/
def sha1 (msg : List Nat) : List Nat :=
  let h0 : List Nat := [1732584193, 4023233417, 2562383102, 271733878, 3285377520]
  (((chunkList 64 (sha1Pad msg)).foldl sha1Compress h0).map (fun w => natToBe w 4)).flatten

/-! ### HMAC-SHA1 (RFC 2104), as used by the Go standard library `crypto/hmac` -/

/-- HMAC-SHA1 of `msg` under `key`. -/
def hmacSha1 (key msg : List Nat) : List Nat :=
  let kb := if 64 < key.length then sha1 key else key
  let k0 := kb ++ List.replicate (64 - kb.length) 0
  sha1 ((k0.map (fun b => Nat.xor b 92)) ++ sha1 ((k0.map (fun b => Nat.xor b 54)) ++ msg))

/-! ### PBKDF2-HMAC-SHA1 (RFC 2898), used by AES string-to-key (RFC 3962) -/

/-- Iterated XOR accumulation for one PBKDF2 block. -/
def pbkdf2Iter (pw : List Nat) : Nat → List Nat → List Nat → List Nat
  | 0, _, acc => acc
  | n + 1, u, acc =>
    let u2 := hmacSha1 pw u
    pbkdf2Iter pw n u2 (xorBytes acc u2)

/-- Block `i` (1-based) of the PBKDF2 output stream. -/
def pbkdf2Block (pw salt : List Nat) (iter i : Nat) : List Nat :=
  let u1 := hmacSha1 pw (salt ++ natToBe i 4)
  pbkdf2Iter pw (iter - 1) u1 u1

/-- PBKDF2-HMAC-SHA1 derived key of `dkLen` bytes. -/
def pbkdf2 (pw salt : List Nat) (iter dkLen : Nat) : List Nat :=
  (((List.range ((dkLen + 19) / 20)).map (fun b => pbkdf2Block pw salt iter (b + 1))).flatten).take dkLen

/-! ### AES block cipher (FIPS 197), as used by the Go standard library
`crypto/aes`; only encryption/decryption of single 16-byte blocks is
needed, composed below into CBC with ciphertext stealing (RFC 3962). -/

/-- Forward S-box of AES. -/
def sboxTable : List Nat :=
  [99, 124, 119, 123, 242, 107, 111, 197, 48, 1, 103, 43, 254, 215, 171, 118, 202, 130, 201, 125, 250, 89, 71, 240, 173, 212, 162, 175, 156, 164, 114, 192, 183, 253, 147, 38, 54, 63, 247, 204, 52, 165, 229, 241, 113, 216, 49, 21, 4, 199, 35, 195, 24, 150, 5, 154, 7, 18, 128, 226, 235, 39, 178, 117, 9, 131, 44, 26, 27, 110, 90, 160, 82, 59, 214, 179, 41, 227, 47, 132, 83, 209, 0, 237, 32, 252, 177, 91, 106, 203, 190, 57, 74, 76, 88, 207, 208, 239, 170, 251, 67, 77, 51, 133, 69, 249, 2, 127, 80, 60, 159, 168, 81, 163, 64, 143, 146, 157, 56, 245, 188, 182, 218, 33, 16, 255, 243, 210, 205, 12, 19, 236, 95, 151, 68, 23, 196, 167, 126, 61, 100, 93, 25, 115, 96, 129, 79, 220, 34, 42, 144, 136, 70, 238, 184, 20, 222, 94, 11, 219, 224, 50, 58, 10, 73, 6, 36, 92, 194, 211, 172, 98, 145, 149, 228, 121, 231, 200, 55, 109, 141, 213, 78, 169, 108, 86, 244, 234, 101, 122, 174, 8, 186, 120, 37, 46, 28, 166, 180, 198, 232, 221, 116, 31, 75, 189, 139, 138, 112, 62, 181, 102, 72, 3, 246, 14, 97, 53, 87, 185, 134, 193, 29, 158, 225, 248, 152, 17, 105, 217, 142, 148, 155, 30, 135, 233, 206, 85, 40, 223, 140, 161, 137, 13, 191, 230, 66, 104, 65, 153, 45, 15, 176, 84, 187, 22]

/-- Inverse S-box of AES. -/
def invSboxTable : List Nat :=
  [82, 9, 106, 213, 48, 54, 165, 56, 191, 64, 163, 158, 129, 243, 215, 251, 124, 227, 57, 130, 155, 47, 255, 135, 52, 142, 67, 68, 196, 222, 233, 203, 84, 123, 148, 50, 166, 194, 35, 61, 238, 76, 149, 11, 66, 250, 195, 78, 8, 46, 161, 102, 40, 217, 36, 178, 118, 91, 162, 73, 109, 139, 209, 37, 114, 248, 246, 100, 134, 104, 152, 22, 212, 164, 92, 204, 93, 101, 182, 146, 108, 112, 72, 80, 253, 237, 185, 218, 94, 21, 70, 87, 167, 141, 157, 132, 144, 216, 171, 0, 140, 188, 211, 10, 247, 228, 88, 5, 184, 179, 69, 6, 208, 44, 30, 143, 202, 63, 15, 2, 193, 175, 189, 3, 1, 19, 138, 107, 58, 145, 17, 65, 79, 103, 220, 234, 151, 242, 207, 206, 240, 180, 230, 115, 150, 172, 116, 34, 231, 173, 53, 133, 226, 249, 55, 232, 28, 117, 223, 110, 71, 241, 26, 113, 29, 41, 197, 137, 111, 183, 98, 14, 170, 24, 190, 27, 252, 86, 62, 75, 198, 210, 121, 32, 154, 219, 192, 254, 120, 205, 90, 244, 31, 221, 168, 51, 136, 7, 199, 49, 177, 18, 16, 89, 39, 128, 236, 95, 96, 81, 127, 169, 25, 181, 74, 13, 45, 229, 122, 159, 147, 201, 156, 239, 160, 224, 59, 77, 174, 42, 245, 176, 200, 235, 187, 60, 131, 83, 153, 97, 23, 43, 4, 126, 186, 119, 214, 38, 225, 105, 20, 99, 85, 33, 12, 125]

/-- Multiplication by x in GF(2^8) modulo x^8+x^4+x^3+x+1. -/
def xtime (x : Nat) : Nat := if x < 128 then 2 * x else Nat.xor (2 * x % 256) 27

/-- Multiplication by 2 in GF(2^8). -/
def g2 (x : Nat) : Nat := xtime x

/-- Multiplication by 3 in GF(2^8). -/
def g3 (x : Nat) : Nat := Nat.xor (xtime x) x

/-- Multiplication by 9 in GF(2^8). -/
def g9 (x : Nat) : Nat := Nat.xor (xtime (xtime (xtime x))) x

/-- Multiplication by 11 in GF(2^8). -/
def g11 (x : Nat) : Nat := Nat.xor (Nat.xor (xtime (xtime (xtime x))) (xtime x)) x

/-- Multiplication by 13 in GF(2^8). -/
def g13 (x : Nat) : Nat := Nat.xor (Nat.xor (xtime (xtime (xtime x))) (xtime (xtime x))) x

/-- Multiplication by 14 in GF(2^8). -/
def g14 (x : Nat) : Nat := Nat.xor (Nat.xor (xtime (xtime (xtime x))) (xtime (xtime x))) (xtime x)

/-- Byte `i` (big-endian, 0-based) of a `len`-byte value packed into a
natural number. The AES state and round keys are carried as 16-byte packed
naturals so that every step is large-integer arithmetic. -/
def byteAt (x len i : Nat) : Nat := x / 256 ^ (len - 1 - i) % 256

/-- The S-box packed into one 256-byte natural. -/
def sboxNat : Nat := beToNat sboxTable

/-- The inverse S-box packed into one 256-byte natural. -/
def invSboxNat : Nat := beToNat invSboxTable

/-- S-box lookup. -/
def sboxN (b : Nat) : Nat := byteAt sboxNat 256 b

/-- Inverse S-box lookup. -/
def invSboxN (b : Nat) : Nat := byteAt invSboxNat 256 b

/-- SubBytes on the packed 16-byte state. -/
def subBytesN (x : Nat) : Nat :=
  (List.range 16).foldl (fun acc i => acc * 256 + sboxN (byteAt x 16 i)) 0

/-- InvSubBytes on the packed state. -/
def invSubBytesN (x : Nat) : Nat :=
  (List.range 16).foldl (fun acc i => acc * 256 + invSboxN (byteAt x 16 i)) 0

/-- Byte permutation realising ShiftRows on the column-major flat state. -/
def shiftRowsPerm : List Nat := [0, 5, 10, 15, 4, 9, 14, 3, 8, 13, 2, 7, 12, 1, 6, 11]

/-- Byte permutation realising InvShiftRows. -/
def invShiftRowsPerm : List Nat := [0, 13, 10, 7, 4, 1, 14, 11, 8, 5, 2, 15, 12, 9, 6, 3]

/-- ShiftRows on the packed state. -/
def shiftRowsN (x : Nat) : Nat :=
  shiftRowsPerm.foldl (fun acc i => acc * 256 + byteAt x 16 i) 0

/-- InvShiftRows on the packed state. -/
def invShiftRowsN (x : Nat) : Nat :=
  invShiftRowsPerm.foldl (fun acc i => acc * 256 + byteAt x 16 i) 0

/-- MixColumns on one column given as four bytes, packed to 32 bits. -/
def mixColN (a b c d : Nat) : Nat :=
  ((Nat.xor (Nat.xor (g2 a) (g3 b)) (Nat.xor c d) * 256 +
    Nat.xor (Nat.xor a (g2 b)) (Nat.xor (g3 c) d)) * 256 +
    Nat.xor (Nat.xor a b) (Nat.xor (g2 c) (g3 d))) * 256 +
    Nat.xor (Nat.xor (g3 a) b) (Nat.xor c (g2 d))

/-- InvMixColumns on one column given as four bytes, packed to 32 bits. -/
def invMixColN (a b c d : Nat) : Nat :=
  ((Nat.xor (Nat.xor (g14 a) (g11 b)) (Nat.xor (g13 c) (g9 d)) * 256 +
    Nat.xor (Nat.xor (g9 a) (g14 b)) (Nat.xor (g11 c) (g13 d))) * 256 +
    Nat.xor (Nat.xor (g13 a) (g9 b)) (Nat.xor (g14 c) (g11 d))) * 256 +
    Nat.xor (Nat.xor (g11 a) (g13 b)) (Nat.xor (g9 c) (g14 d))

/-- MixColumns on the packed state. -/
def mixColumnsN (x : Nat) : Nat :=
  (List.range 4).foldl
    (fun acc c => acc * 2 ^ 32 +
      mixColN (byteAt x 16 (4 * c)) (byteAt x 16 (4 * c + 1))
        (byteAt x 16 (4 * c + 2)) (byteAt x 16 (4 * c + 3))) 0

/-- InvMixColumns on the packed state. -/
def invMixColumnsN (x : Nat) : Nat :=
  (List.range 4).foldl
    (fun acc c => acc * 2 ^ 32 +
      invMixColN (byteAt x 16 (4 * c)) (byteAt x 16 (4 * c + 1))
        (byteAt x 16 (4 * c + 2)) (byteAt x 16 (4 * c + 3))) 0

/-- SubWord of the key schedule on a 32-bit word. -/
def subWord (w : Nat) : Nat :=
  (List.range 4).foldl (fun acc i => acc * 256 + sboxN (byteAt w 4 i)) 0

/-- RotWord of the key schedule. -/
def rotWord (w : Nat) : Nat := (w % 2 ^ 24) * 256 + w / 2 ^ 24

/-- Round-constant word rcon[i] (1-based). -/
def rconW (i : Nat) : Nat := (Nat.iterate xtime (i - 1) 1) * 2 ^ 24

/-- Next word of the AES key schedule: index `i`, previous word `wIm1`,
word `nk` back `wImnk`. -/
def ksNext (nk i wImnk wIm1 : Nat) : Nat :=
  let t :=
    if i % nk = 0 then Nat.xor (subWord (rotWord wIm1)) (rconW (i / nk))
    else if 6 < nk ∧ i % nk = 4 then subWord wIm1
    else wIm1
  Nat.xor wImnk t

/-- Key-schedule worker: `acc` holds the words produced so far, newest
first, so w[i-1] is the head and w[i-nk] sits at position nk-1. -/
def keyWordsGo (key : List Nat) (nk : Nat) : Nat → Nat → List Nat → List Nat
  | 0, _, acc => acc.reverse
  | fuel + 1, i, acc =>
    let next :=
      if i < nk then beToNat ((key.drop (4 * i)).take 4)
      else ksNext nk i (acc.getD (nk - 1) 0) (acc.getD 0 0)
    keyWordsGo key nk fuel (i + 1) (next :: acc)

/-- The words of the AES key schedule for key `key` with `nk` key words. -/
def keyWordsAux (key : List Nat) (nk i : Nat) : List Nat :=
  keyWordsGo key nk i 0 []

/-- All round keys of the schedule for `nk` key words and `nr` rounds,
each packed into a 16-byte natural. -/
def roundKeysN (key : List Nat) (nk nr : Nat) : List Nat :=
  (chunkList 4 (keyWordsAux key nk (4 * (nr + 1)))).map
    (fun c => c.foldl (fun a w => a * 2 ^ 32 + w) 0)

/-- The middle and final rounds of AES encryption, consuming round keys
1..nr in order; the final round omits MixColumns. -/
def aesEncRoundsN (st : Nat) : List Nat → Nat
  | [] => st
  | [rkLast] => Nat.xor (shiftRowsN (subBytesN st)) rkLast
  | rk :: rk2 :: rks => aesEncRoundsN (Nat.xor (mixColumnsN (shiftRowsN (subBytesN st))) rk) (rk2 :: rks)

/-- AES block encryption of a 16-byte state. -/
def aesEncBlock (key : List Nat) (nk nr : Nat) (input : List Nat) : List Nat :=
  match roundKeysN key nk nr with
  | [] => input
  | rk0 :: rks => natToBe (aesEncRoundsN (Nat.xor (beToNat input) rk0) rks) 16

/-- The middle and final rounds of the AES inverse cipher, consuming round
keys nr-1..0 in order; the final round omits InvMixColumns. -/
def aesDecRoundsN (st : Nat) : List Nat → Nat
  | [] => st
  | [rk0] => Nat.xor (invSubBytesN (invShiftRowsN st)) rk0
  | rk :: rk2 :: rks => aesDecRoundsN (invMixColumnsN (Nat.xor (invSubBytesN (invShiftRowsN st)) rk)) (rk2 :: rks)

/-- AES block decryption of a 16-byte state (inverse cipher). -/
def aesDecBlock (key : List Nat) (nk nr : Nat) (input : List Nat) : List Nat :=
  match (roundKeysN key nk nr).reverse with
  | [] => input
  | rkNr :: rks => natToBe (aesDecRoundsN (Nat.xor (beToNat input) rkNr) rks) 16

/-! ### AES-CBC with ciphertext stealing (RFC 3962), IV = zero.

Modelled from the spec: the concrete `Aes128CtsHmacSha96`/`Aes256CtsHmacSha96`
enctype implementations are not among the sampled sources; the spec
specifies them as "AES in CBC with ciphertext stealing (CTS) per RFC 3962,
IV = zero", length-preserving, failing on a key of the wrong size or a
message shorter than one block. -/

/-- CBC encryption of a list of full 16-byte blocks. -/
def cbcEncBlocks (key : List Nat) (nk nr : Nat) : List Nat → List (List Nat) → List (List Nat)
  | _, [] => []
  | prev, b :: rest =>
    let c := aesEncBlock key nk nr (xorBytes prev b)
    c :: cbcEncBlocks key nk nr c rest

/-- CBC decryption of a list of full 16-byte blocks. -/
def cbcDecBlocks (key : List Nat) (nk nr : Nat) : List Nat → List (List Nat) → List (List Nat)
  | _, [] => []
  | prev, c :: rest =>
    xorBytes (aesDecBlock key nk nr c) prev :: cbcDecBlocks key nk nr c rest

/-- The all-zero initialisation vector. -/
def zeroIV : List Nat := List.replicate 16 0

/-- AES-CBC-CTS encryption (RFC 3962): length-preserving for messages of at
least one block; the last two ciphertext blocks are swapped and the final
one truncated. Errors mirror the Go enctype: wrong key size or a message
shorter than one block. -/
def ctsEncrypt (ksize : Nat) (nk nr : Nat) (key msg : List Nat) : Except String (List Nat) :=
  if key.length ≠ ksize then .error "Incorrect keysize" else
  if msg.length < 16 then .error "Message smaller than block size" else
  if msg.length = 16 then .ok (aesEncBlock key nk nr (xorBytes zeroIV msg)) else
  let n := (msg.length + 15) / 16
  let p := msg.length - (n - 1) * 16
  let cs := cbcEncBlocks key nk nr zeroIV (chunkList 16 (msg.take ((n - 1) * 16)))
  let cPen := cs.getLastD []
  let cN := aesEncBlock key nk nr (xorBytes cPen (msg.drop ((n - 1) * 16) ++ List.replicate (16 - p) 0))
  .ok (cs.dropLast.flatten ++ cN ++ cPen.take p)

/-- AES-CBC-CTS decryption (RFC 3962), inverse of `ctsEncrypt`. -/
def ctsDecrypt (ksize : Nat) (nk nr : Nat) (key msg : List Nat) : Except String (List Nat) :=
  if key.length ≠ ksize then .error "Incorrect keysize" else
  if msg.length < 16 then .error "Ciphertext smaller than block size" else
  if msg.length = 16 then .ok (xorBytes (aesDecBlock key nk nr msg) zeroIV) else
  let n := (msg.length + 15) / 16
  let p := msg.length - (n - 1) * 16
  let pre := msg.take ((n - 2) * 16)
  let bPen := (msg.drop ((n - 2) * 16)).take 16
  let tl := msg.drop ((n - 1) * 16)
  let d := aesDecBlock key nk nr bPen
  let cPen := tl ++ d.drop p
  let pN := xorBytes (d.take p) tl
  .ok ((cbcDecBlocks key nk nr zeroIV (chunkList 16 pre ++ [cPen])).flatten ++ pN)

/-- Decidable equality for `Except`, needed to evaluate the functions of this
development inside `decide`. -/
instance instDecidableEqExcept [DecidableEq ε] [DecidableEq α] : DecidableEq (Except ε α) := fun x y =>
  match x, y with
  | .ok a, .ok b =>
    if h : a = b then .isTrue (by rw [h]) else .isFalse (by intro hh; cases hh; exact h rfl)
  | .error a, .error b =>
    if h : a = b then .isTrue (by rw [h]) else .isFalse (by intro hh; cases hh; exact h rfl)
  | .ok _, .error _ => .isFalse (by intro hh; cases hh)
  | .error _, .ok _ => .isFalse (by intro hh; cases hh)

/-! ### n-fold (RFC 3961 section 5.1).

Modelled from the spec: the `Nfold` of the repository is called by
`deriveRandom` but its own file is not among the sampled sources. The spec
describes it ("replicate input until its bit-length is lcm; partition into
n-bit blocks; sum them with ones-complement addition", its words) and fixes it by the
RFC 3961 test vectors, which this definition reproduces (each successive
replica is rotated right by 13 more bits, as the RFC prescribes). -/

/-- Rotate a byte string right by `r` bits. -/
def rotRightBytes (b : List Nat) (r : Nat) : List Nat :=
  let lbits := b.length * 8
  let r2 := r % lbits
  let x := beToNat b
  natToBe ((x % 2 ^ r2) * 2 ^ (lbits - r2) + x / 2 ^ r2) b.length

/-- Addition with end-around carry (ones complement) on `m`-bit values. -/
def onesAdd (m a b : Nat) : Nat :=
  let s := a + b
  s % 2 ^ m + s / 2 ^ m

/-- Fuel-driven Euclidean worker, kernel-reducible. -/
def gcdAux : Nat → Nat → Nat → Nat
  | 0, _, b => b
  | _ + 1, 0, b => b
  | fuel + 1, a + 1, b => gcdAux fuel (b % (a + 1)) (a + 1)

/-- Greatest common divisor by structural recursion. -/
def natGcd (a b : Nat) : Nat := gcdAux (a + 1) a b

/-- Least common multiple by structural recursion. -/
def natLcm (a b : Nat) : Nat := a * b / natGcd a b

/-- The n-fold function: stretch `b` to exactly `nbits/8` bytes. -/
def Nfold (b : List Nat) (nbits : Nat) : List Nat :=
  let inBits := b.length * 8
  let reps := natLcm inBits nbits / inBits
  let big := ((List.range reps).map (fun i => rotRightBytes b (13 * i))).flatten
  natToBe ((chunkList (nbits / 8) big).foldl (fun acc c => onesAdd nbits acc (beToNat c)) 0) (nbits / 8)

/-! ### The two supported AES enctypes.

Modelled from the spec: the concrete `Aes128CtsHmacSha96` and
`Aes256CtsHmacSha96` capability objects are not among the sampled sources;
their method set and parameters (id, key/seed size, block sizes, HMAC
truncation 96 bits, default s2kparams 0x00001000, string-to-key =
PBKDF2 then DK with constant "kerberos", random-to-key = identity,
encrypt/decrypt = AES-CBC-CTS with zero IV) are given in spec sections
4.1 and 6. -/

inductive AesEType where
  | aes128
  | aes256
deriving DecidableEq, Repr

/-- GetETypeID of the enctype (17 / 18). -/
def etypeID : AesEType → Int
  | .aes128 => 17
  | .aes256 => 18

/-- GetKeyByteSize of the enctype. -/
def keyByteSize : AesEType → Nat
  | .aes128 => 16
  | .aes256 => 32

/-- GetKeySeedBitLength of the enctype. -/
def keySeedBitLength : AesEType → Nat
  | .aes128 => 128
  | .aes256 => 256

/-- Number of 32-bit key words of the AES key schedule. -/
def aesNk : AesEType → Nat
  | .aes128 => 4
  | .aes256 => 8

/-- Number of AES rounds. -/
def aesNr : AesEType → Nat
  | .aes128 => 10
  | .aes256 => 14

/-- GetHMACBitLength: both enctypes truncate the HMAC to 96 bits. -/
def hmacBitLength (_ : AesEType) : Nat := 96

/-- GetMessageBlockByteSize. -/
def messageBlockByteSize (_ : AesEType) : Nat := 16

/-- GetCypherBlockBitLength. -/
def cypherBlockBitLength (_ : AesEType) : Nat := 128

/-- GetConfounderByteSize: equals the cipher block size in bytes. -/
def confounderByteSize (_ : AesEType) : Nat := 16

/-- GetDefaultStringToKeyParams: the 4-byte big-endian PBKDF2 iteration
count 4096 (hex 00001000), kept here as raw bytes where the Go code
carries the hex string and decodes it inside StringToKey. -/
def defaultS2KParams (_ : AesEType) : List Nat := [0, 0, 16, 0]

/-- The E function of the enctype: AES-CBC-CTS, zero IV. Go returns a
(state, ciphertext) pair whose state component callers here ignore. -/
def etypeEncrypt (e : AesEType) (key msg : List Nat) : Except String (List Nat × List Nat) :=
  (ctsEncrypt (keyByteSize e) (aesNk e) (aesNr e) key msg).map (fun c => ([], c))

/-- The D function of the enctype: AES-CBC-CTS, zero IV. -/
def etypeDecrypt (e : AesEType) (key msg : List Nat) : Except String (List Nat) :=
  ctsDecrypt (keyByteSize e) (aesNk e) (aesNr e) key msg

/-- RandomToKey: the identity for the AES enctypes. -/
def randomToKey (_ : AesEType) (b : List Nat) : List Nat := b

/-- Accumulation loop of `deriveRandom`: feed the last cipher block back
into E until `outLen` bytes are collected (source lines 89-92; the loop
ignores encryption errors, so an error step contributes no bytes and the
result is truncated — unreachable for well-formed keys). -/
def deriveRandomLoop (e : AesEType) (key : List Nat) (outLen : Nat) : Nat → List Nat → List Nat → List Nat
  | 0, acc, _ => acc.take outLen
  | fuel + 1, acc, k =>
    if outLen ≤ acc.length then acc.take outLen
    else
      let k2 := match etypeEncrypt e key k with
        | .ok (_, c) => c
        | .error _ => []
      deriveRandomLoop e key outLen fuel (acc ++ k2) k2

/-- DR, RFC 3961: k-truncate of iterated encryption of the n-folded usage
constant (EncryptionEngine.go, `deriveRandom`). `n` is the cipher block
size in bits, `k` the seed length in bits. -/
def deriveRandom (key usage : List Nat) (n k : Nat) (e : AesEType) : Except String (List Nat) :=
  let nFoldUsage := Nfold usage n
  match etypeEncrypt e key nFoldUsage with
  | .error err => .error err
  | .ok (_, kBlock) => .ok (deriveRandomLoop e key (k / 8) (k / 8) kBlock kBlock)

/-- DK of the enctype: `random-to-key(DR(key, usage))` (spec section 4.3). -/
def etypeDeriveKey (e : AesEType) (protocolKey usage : List Nat) : Except String (List Nat) :=
  (deriveRandom protocolKey usage (cypherBlockBitLength e) (keySeedBitLength e) e).map (randomToKey e)

/-- The ASCII bytes of the string-to-key constant "kerberos". -/
def kerberosConstant : List Nat := [107, 101, 114, 98, 101, 114, 111, 115]

/-- StringToKey of the AES enctypes (RFC 3962 / spec section 4.1):
PBKDF2-HMAC-SHA1 with the iteration count from s2kparams (4 big-endian
bytes, here kept raw), then DK with constant "kerberos". Fails if
s2kparams does not hold exactly 4 bytes or the iteration count is 0. -/
def stringToKey (e : AesEType) (passwd salt s2kparams : List Nat) : Except String (List Nat) :=
  if s2kparams.length ≠ 4 then .error "Invalid s2kparams length" else
  let iter := beToNat s2kparams
  if iter = 0 then .error "Invalid s2kparams iteration count" else
  let tkey := randomToKey e (pbkdf2 passwd salt iter (keyByteSize e))
  etypeDeriveKey e tkey kerberosConstant

/-! ### Protocol data types (types package) -/

/-- EncryptionKey (types): enctype id and key bytes. -/
structure EncryptionKey where
  keyType : Int
  keyValue : List Nat
deriving DecidableEq, Repr

/-- EncryptedData (types): enctype id, key version number, cipher bytes. -/
structure EncryptedData where
  etype : Int
  kvno : Int
  cipher : List Nat
deriving DecidableEq, Repr

/-- One entry of a decoded PA-ETYPE-INFO sequence. -/
structure ETypeInfoEntry where
  etype : Int
  salt : List Nat
deriving DecidableEq, Repr

/-- One entry of a decoded PA-ETYPE-INFO2 sequence; an absent s2kparams is
the empty list (a Go nil slice). -/
structure ETypeInfo2Entry where
  etype : Int
  salt : List Nat
  s2kparams : List Nat
deriving DecidableEq, Repr

/-- Value of a PA-DATA element. Modelled from the spec: the ASN.1 codec is
an external collaborator, so a PA-DATA value is carried here in decoded
form — raw bytes, or the entry list its bytes decode to for the
PA-ETYPE-INFO(2) types. -/
inductive PAValue where
  | bytes (b : List Nat)
  | info (l : List ETypeInfoEntry)
  | info2 (l : List ETypeInfo2Entry)
deriving DecidableEq, Repr

/-- PA-DATA (types): type number and value. -/
structure PAData where
  padataType : Int
  padataValue : PAValue
deriving DecidableEq, Repr

/-- The byte-string reading of a PA-DATA value (Go `string(pa.PADataValue)`). -/
def pavBytes : PAValue → List Nat
  | .bytes b => b
  | _ => []

/-- Modelled from the spec: `ETypeInfo.Unmarshal`, the ASN.1 decoding of a
PA-ETYPE-INFO value, is external codec work; it succeeds exactly on values
carrying a decoded PA-ETYPE-INFO entry list. -/
def unmarshalETypeInfo : PAValue → Except String (List ETypeInfoEntry)
  | .info l => .ok l
  | _ => .error "asn1 decode failure"

/-- Modelled from the spec: `ETypeInfo2.Unmarshal`, likewise. -/
def unmarshalETypeInfo2 : PAValue → Except String (List ETypeInfo2Entry)
  | .info2 l => .ok l
  | _ => .error "asn1 decode failure"

/-- PrincipalName (types/PrincipalName.go). -/
structure PrincipalName where
  nameType : Int
  nameString : List (List Nat)
deriving DecidableEq, Repr

/-- GetSalt (types/PrincipalName.go): append the realm, then every name
component in order, with no separator. -/
def GetSalt (pn : PrincipalName) (realm : List Nat) : List Nat :=
  pn.nameString.foldl (fun acc n => acc ++ n) realm

/-- PA-DATA type number of PA-ENC-TIMESTAMP (iana/patype). -/
def PA_ENC_TIMESTAMP : Int := 2

/-- PA-DATA type number of PA-PW-SALT (iana/patype). -/
def PA_PW_SALT : Int := 3

/-- PA-DATA type number of PA-ETYPE-INFO (iana/patype). -/
def PA_ETYPE_INFO : Int := 11

/-- PA-DATA type number of PA-ETYPE-INFO2 (iana/patype). -/
def PA_ETYPE_INFO2 : Int := 19

/-! ### Go slice semantics -/

/-- Go `b[:n]` with a possibly negative `n`: a panic (`none`) when `n` is
out of range. -/
def goSliceTo (b : List Nat) (n : Int) : Option (List Nat) :=
  if 0 ≤ n ∧ n ≤ b.length then some (b.take n.toNat) else none

/-- Go `b[n:]`: a panic (`none`) when `n` is out of range. -/
def goSliceFrom (b : List Nat) (n : Int) : Option (List Nat) :=
  if 0 ≤ n ∧ n ≤ b.length then some (b.drop n.toNat) else none

/-! ### EncryptionEngine.go -/

/-- GetEtype: the enctype registry; only 17 and 18 are supported. -/
def GetEtype (id : Int) : Except String AesEType :=
  if id = 17 then .ok .aes128
  else if id = 18 then .ok .aes256
  else .error "Unknown or unsupported EType"

/-- Go `uint32(i)` on an `int`. -/
def uint32Of (i : Int) : Nat := (i % 4294967296).toNat

/-- The RFC 3961 well-known constant: the usage number on 4 big-endian
bytes followed by the tag octet (EncryptionEngine.go `getUsage`). -/
def getUsage (un : Nat) (o : Nat) : List Nat := natToBe un 4 ++ [o]

/-- Kc tag constant (0x99). -/
def GetUsageKc (un : Nat) : List Nat := getUsage un 153

/-- Ke tag constant (0xAA). -/
def GetUsageKe (un : Nat) : List Nat := getUsage un 170

/-- Ki tag constant (0x55). -/
def GetUsageKi (un : Nat) : List Nat := getUsage un 85

/-- EncryptionEngine.go `getHash`: derive a key from the base key with the
given well-known constant, HMAC the message with it, truncate. -/
def getHash (pt key usage : List Nat) (etype : AesEType) : Except String (List Nat) :=
  match etypeDeriveKey etype key usage with
  | .error e => .error ("Unable to derive key for checksum: " ++ e)
  | .ok k => .ok ((hmacSha1 k pt).take (hmacBitLength etype / 8))

/-- GetIntegrityHash: `getHash` under the Ki constant. -/
def GetIntegrityHash (pt key : List Nat) (usage : Nat) (etype : AesEType) : Except String (List Nat) :=
  getHash pt key (GetUsageKi usage) etype

/-- GetChecksumHash: `getHash` under the Kc constant. -/
def GetChecksumHash (pt key : List Nat) (usage : Nat) (etype : AesEType) : Except String (List Nat) :=
  getHash pt key (GetUsageKc usage) etype

/-- EncryptionEngine.go `VerifyIntegrity`: compare the trailing truncated
HMAC of the ciphertext against the recomputed integrity hash of the
plaintext (the error of the recomputation is discarded by the source). The
slice `ct[len(ct)-h:]` panics (`none`) on a short ciphertext. -/
def VerifyIntegrity (key ct pt : List Nat) (usage : Nat) (etype : AesEType) : Option Bool :=
  match goSliceFrom ct ((ct.length : Int) - (hmacBitLength etype / 8 : Nat)) with
  | none => none
  | some tl =>
    let expectedMAC := (GetIntegrityHash pt key usage etype).toOption.getD []
    some (decide (tl = expectedMAC))

/-- EncryptionEngine.go `GetEncryptedData`. The random confounder drawn
from `crypto/rand` is passed in as the explicit argument `conf`. A usage
of zero uses the key directly for encryption; the integrity hash error is
discarded by the source (a failed hash contributes no MAC bytes). -/
def GetEncryptedData (pt : List Nat) (key : EncryptionKey) (usage : Int) (kvno : Int)
    (conf : List Nat) : Except String EncryptedData :=
  match GetEtype key.keyType with
  | .error e => .error ("Error getting etype: " ++ e)
  | .ok etype =>
    let kRes : Except String (List Nat) :=
      if usage ≠ 0 then
        match etypeDeriveKey etype key.keyValue (GetUsageKe (uint32Of usage)) with
        | .error e => .error ("Error deriving key: " ++ e)
        | .ok k => .ok k
      else .ok key.keyValue
    match kRes with
    | .error e => .error e
    | .ok k =>
      let pt2 := conf ++ pt
      match etypeEncrypt etype k pt2 with
      | .error e => .error ("Error encrypting data: " ++ e)
      | .ok (_, b) =>
        let ih := (GetIntegrityHash pt2 key.keyValue (uint32Of usage) etype).toOption.getD []
        .ok { etype := key.keyType, kvno := kvno, cipher := b ++ ih }

/-- EncryptionEngine.go `DecryptEncPart`: always derive Ke, strip the
trailing MAC (a panic — `none` — when the cipher is shorter than the MAC),
decrypt, verify integrity against the base key, strip the confounder. -/
def DecryptEncPart (key : List Nat) (pe : EncryptedData) (etype : AesEType) (usage : Nat) :
    Option (Except String (List Nat)) :=
  match etypeDeriveKey etype key (GetUsageKe usage) with
  | .error e => some (.error ("Error deriving key: " ++ e))
  | .ok k =>
    match goSliceTo pe.cipher ((pe.cipher.length : Int) - (hmacBitLength etype / 8 : Nat)) with
    | none => none
    | some body =>
      match etypeDecrypt etype k body with
      | .error e => some (.error ("Error decrypting: " ++ e))
      | .ok b =>
        match VerifyIntegrity key pe.cipher b usage etype with
        | none => none
        | some ok =>
          if !ok then some (.error "Error decrypting encrypted part: integrity verification failed")
          else
            match goSliceFrom b (confounderByteSize etype : Nat) with
            | none => none
            | some rest => some (.ok rest)

/-- The PA-DATA scan of `GetKeyFromPassword` (source lines 179-223): the
running state is the working enctype, salt and s2kparams; `paID` is the
guard variable of the source, which the loop reads but never updates. An
indexing panic on an empty decoded entry list is `none`. -/
def paLoop (etypeId : Int) (paID : Int) (etype : AesEType) (salt sk2p : List Nat) :
    List PAData → Option (Except String (AesEType × List Nat × List Nat))
  | [] => some (.ok (etype, salt, sk2p))
  | pa :: rest =>
    if pa.padataType = PA_PW_SALT then
      if paID > pa.padataType then paLoop etypeId paID etype salt sk2p rest
      else paLoop etypeId paID etype (pavBytes pa.padataValue) sk2p rest
    else if pa.padataType = PA_ETYPE_INFO then
      if paID > pa.padataType then paLoop etypeId paID etype salt sk2p rest
      else
        match unmarshalETypeInfo pa.padataValue with
        | .error _ => some (.error "Error unmashalling PA Data to PA-ETYPE-INFO2")
        | .ok et =>
          match et.head? with
          | none => none
          | some e0 =>
            if etypeId ≠ e0.etype then
              match GetEtype e0.etype with
              | .error e => some (.error ("Error getting encryption type: " ++ e))
              | .ok et2 => paLoop etypeId paID et2 e0.salt sk2p rest
            else paLoop etypeId paID etype e0.salt sk2p rest
    else if pa.padataType = PA_ETYPE_INFO2 then
      if paID > pa.padataType then paLoop etypeId paID etype salt sk2p rest
      else
        match unmarshalETypeInfo2 pa.padataValue with
        | .error _ => some (.error "Error unmashalling PA Data to PA-ETYPE-INFO2")
        | .ok et2 =>
          match et2.head? with
          | none => none
          | some e0 =>
            if etypeId ≠ e0.etype then
              match GetEtype e0.etype with
              | .error e => some (.error ("Error getting encryption type: " ++ e))
              | .ok etN =>
                paLoop etypeId paID etN e0.salt
                  (if e0.s2kparams.length = 4 then e0.s2kparams else sk2p) rest
            else
              paLoop etypeId paID etype e0.salt
                (if e0.s2kparams.length = 4 then e0.s2kparams else sk2p) rest
    else paLoop etypeId paID etype salt sk2p rest

/-- EncryptionEngine.go `GetKeyFromPassword`: resolve the working enctype,
salt and s2kparams from the PA-DATA sequence, fall back to the default
salt, run string-to-key, and wrap the result — tagged with the requested
`etypeId` — in an EncryptionKey. -/
def GetKeyFromPassword (passwd : List Nat) (cn : PrincipalName) (realm : List Nat)
    (etypeId : Int) (pas : List PAData) : Option (Except String (EncryptionKey × AesEType)) :=
  match GetEtype etypeId with
  | .error e => some (.error ("Error getting encryption type: " ++ e))
  | .ok et0 =>
    match paLoop etypeId 0 et0 [] (defaultS2KParams et0) pas with
    | none => none
    | some (.error e) => some (.error e)
    | some (.ok (etype, salt0, sk2p)) =>
      let salt := if salt0 = [] then GetSalt cn realm else salt0
      match stringToKey etype passwd salt sk2p with
      | .error e => some (.error ("Error deriving key from string: " ++ e))
      | .ok k => some (.ok ({ keyType := etypeId, keyValue := k }, etype))

/-! ### Message and session types (messages / client packages).

The ASN.1 bodies of the KDC messages are opaque to the client code under
verification: only the fields it reads or writes are modelled. -/

/-- Ticket (types): opaque to the client, only forwarded. -/
structure Ticket where
  realm : List Nat
  sname : PrincipalName
  encPart : EncryptedData
deriving DecidableEq, Repr

/-- KRB-ERROR (messages): the error code and text read by the client. -/
structure KRBError where
  errorCode : Int
  eText : List Nat
deriving DecidableEq, Repr

/-- The decrypted part of an AS-REP consumed when populating the session. -/
structure EncASRepPart where
  authTime : Int
  endTime : Int
  renewTill : Int
  keyExpiration : Int
  key : EncryptionKey
deriving DecidableEq, Repr

/-- AS-REP (messages): the ticket and (after decryption) its decrypted
part; the remaining ASN.1 fields are not read by the exchange. -/
structure ASRep where
  ticket : Ticket
  decPart : EncASRepPart
deriving DecidableEq, Repr

/-- AS-REQ (messages): the exchange only appends to its PA-DATA; the rest
of the request body is built and marshalled by collaborators. -/
structure ASReq where
  paData : List PAData
deriving DecidableEq, Repr

/-- Session (client): state established by a successful AS exchange. -/
structure Session where
  authTime : Int
  endTime : Int
  renewTill : Int
  tgt : Ticket
  sessionKey : EncryptionKey
  sessionKeyExpiration : Int
deriving DecidableEq, Repr

/-- Error type of the client exchanges: a KRB-ERROR surfaced verbatim, or
a message error (Go `fmt.Errorf`/`errors.New`). -/
inductive KrbClientError where
  | krb (e : KRBError)
  | msg (s : String)
deriving DecidableEq, Repr

/-- KDC error code 25 (iana/errorcode KDC_ERR_PREAUTH_REQUIRED). -/
def KDC_ERR_PREAUTH_REQUIRED : Int := 25

/-- Insertion into a descending-sorted list. -/
def insertDesc (x : Int) : List Int → List Int
  | [] => [x]
  | y :: ys => if y ≤ x then x :: y :: ys else y :: insertDesc x ys

/-- Sort a list of enctype ids in descending order
(Go `sort.Sort(sort.Reverse(sort.IntSlice(...)))`). -/
def sortDesc (l : List Int) : List Int := l.foldr insertDesc []

/-- External collaborators and inputs of `ASExchange`: configuration
state, the ASN.1 codec, the KDC transport (its replies consumed in call
order), the PA-ENC-TS-ENC builder, the keytab, the confounder drawn from
the system randomness, and the AS-REP decryption/validation helpers of
the messages package. -/
structure ASEnv where
  isConfigured : Bool
  newASReq : ASReq
  marshal : ASReq → Except String (List Nat)
  replies : List (Except String (List Nat))
  unASRep : List Nat → Except String ASRep
  unKRBError : List Nat → Except String KRBError
  paEncTSEnc : Except String (List Nat)
  tktEnctypeIds : List Int
  keytabKey : Int → Except String EncryptionKey
  confounder : List Nat
  decryptASRep : ASRep → Except String ASRep
  isValid : ASRep → ASReq → Bool

/-- Reply of the `i`-th transport call. -/
def getReply (env : ASEnv) (i : Nat) : Except String (List Nat) :=
  env.replies.getD i (.error "transport error")

/-- Tail of `ASExchange` when the first reply unmarshals as an AS-REP:
decrypt the encrypted part, validate, populate the session. -/
def asSuccess (env : ASEnv) (a : ASReq) (ar : ASRep) (sent : List (List Nat)) :
    Except KrbClientError Unit × Option Session × List (List Nat) :=
  match env.decryptASRep ar with
  | .error _ => (.error (.msg "Error decrypting EncPart of AS_REP"), none, sent)
  | .ok ar2 =>
    if env.isValid ar2 a then
      (.ok (), some { authTime := ar2.decPart.authTime, endTime := ar2.decPart.endTime,
                      renewTill := ar2.decPart.renewTill, tgt := ar2.ticket,
                      sessionKey := ar2.decPart.key,
                      sessionKeyExpiration := ar2.decPart.keyExpiration }, sent)
    else (.error (.msg "AS_REP is not valid"), none, sent)

/-- ASExchange (client): build and send the AS-REQ; on a reply that is not
an AS-REP, decode a KRB-ERROR; on KDC_ERR_PREAUTH_REQUIRED build a
PA-ENC-TIMESTAMP under the keytab key — the keytab lookup error is
shadowed by the source and the encryption is invoked with usage 0 and
kvno 1 — append it, re-send, unmarshal the new reply as AS-REP, and then
(as the source does) fall through to return the KRB-ERROR. The result
carries the returned error or unit, the session established (if any), and
the list of marshalled requests handed to the transport. -/
def ASExchange (env : ASEnv) : Except KrbClientError Unit × Option Session × List (List Nat) :=
  if !env.isConfigured then (.error (.msg "Client is not configured correctly."), none, []) else
  let a := env.newASReq
  match env.marshal a with
  | .error _ => (.error (.msg "Error marshalling AS_REQ"), none, [])
  | .ok b =>
    match getReply env 0 with
    | .error _ => (.error (.msg "Error sending AS_REQ to KDC"), none, [b])
    | .ok rb =>
      match env.unASRep rb with
      | .ok ar => asSuccess env a ar [b]
      | .error _ =>
        match env.unKRBError rb with
        | .error _ => (.error (.msg "Could not unmarshal data returned from KDC"), none, [b])
        | .ok krberr =>
          if krberr.errorCode = KDC_ERR_PREAUTH_REQUIRED then
            match env.paEncTSEnc with
            | .error _ => (.error (.msg "Error creating PAEncTSEnc for Pre-Authentication"), none, [b])
            | .ok paTSb =>
              let etid := (sortDesc env.tktEnctypeIds).getD 0 0
              match GetEtype etid with
              | .error _ => (.error (.msg "Error creating etype"), none, [b])
              | .ok _ =>
                let key := (env.keytabKey etid).toOption.getD { keyType := 0, keyValue := [] }
                match GetEncryptedData paTSb key 0 1 env.confounder with
                | .error _ => (.error (.msg "Error encrypting pre-authentication timestamp"), none, [b])
                | .ok paEncTS =>
                  let pa : PAData := { padataType := PA_ENC_TIMESTAMP, padataValue := .bytes paEncTS.cipher }
                  let a2 : ASReq := { a with paData := a.paData ++ [pa] }
                  match env.marshal a2 with
                  | .error _ => (.error (.msg "Error marshalling AS_REQ"), none, [b])
                  | .ok b2 =>
                    match getReply env 1 with
                    | .error _ => (.error (.msg "Error sending AS_REQ to KDC"), none, [b, b2])
                    | .ok rb2 =>
                      match env.unASRep rb2 with
                      | .error _ => (.error (.msg "Could not unmarshal data returned from KDC"), none, [b, b2])
                      | .ok _ => (.error (.krb krberr), none, [b, b2])
          else (.error (.krb krberr), none, [b])

/-- TGS-REQ (messages): opaque to the exchange code, which only builds,
marshals and forwards it; carried as an abstract tag. -/
structure TGSReq where
  tag : Nat
deriving DecidableEq, Repr

/-- The decrypted part of a TGS-REP consumed when caching the ticket. -/
structure EncTGSRepPart where
  authTime : Int
  endTime : Int
  renewTill : Int
deriving DecidableEq, Repr

/-- TGS-REP (messages): the ticket and (after decryption) its decrypted
part. -/
structure TGSRep where
  ticket : Ticket
  decPart : EncTGSRepPart
deriving DecidableEq, Repr

/-- One ticket-cache entry (client cache `AddEntry` arguments). -/
structure CacheEntry where
  ticket : Ticket
  authTime : Int
  endTime : Int
  renewTill : Int
deriving DecidableEq, Repr

/-- Client state read and written by the TGS exchange. -/
structure Client where
  session : Option Session
  cache : List CacheEntry
deriving DecidableEq, Repr

/-- External collaborators of `TGSExchange`: TGS-REQ construction and
marshalling, transport, TGS-REP unmarshalling, decryption and
validation. -/
structure TGSEnv where
  newTGSReq : Ticket → EncryptionKey → PrincipalName → Bool → Except String TGSReq
  marshal : TGSReq → Except String (List Nat)
  replies : List (Except String (List Nat))
  unTGSRep : List Nat → Except String TGSRep
  decryptTGSRep : TGSRep → EncryptionKey → Except String TGSRep
  isValid : TGSRep → TGSReq → Bool

/-- TGSExchange (client): refuse when no session is populated, otherwise
build, marshal and send the TGS-REQ, unmarshal, decrypt and validate the
TGS-REP. The second component lists the marshalled requests handed to the
transport. -/
def TGSExchange (env : TGSEnv) (cl : Client) (spn : PrincipalName) (renewal : Bool) :
    Except KrbClientError (TGSReq × TGSRep) × List (List Nat) :=
  match cl.session with
  | none => (.error (.msg "Error client does not have a session. Client needs to login first"), [])
  | some s =>
    match env.newTGSReq s.tgt s.sessionKey spn renewal with
    | .error _ => (.error (.msg "Error generating New TGS_REQ"), [])
    | .ok tgsReq =>
      match env.marshal tgsReq with
      | .error _ => (.error (.msg "Error marshalling TGS_REQ"), [])
      | .ok b =>
        match env.replies.getD 0 (.error "transport error") with
        | .error _ => (.error (.msg "Error sending TGS_REQ to KDC"), [b])
        | .ok r =>
          match env.unTGSRep r with
          | .error _ => (.error (.msg "Error unmarshalling TGS_REP"), [b])
          | .ok rep0 =>
            match env.decryptTGSRep rep0 s.sessionKey with
            | .error _ => (.error (.msg "Error decrypting EncPart of TGS_REP"), [b])
            | .ok tgsRep =>
              if env.isValid tgsRep tgsReq then (.ok (tgsReq, tgsRep), [b])
              else (.error (.msg "TGS_REP is not valid"), [b])

/-- KRB_NT_PRINCIPAL name type (iana/nametype). -/
def KRB_NT_PRINCIPAL : Int := 1

/-- Split a byte string on the byte of "/" (Go `strings.Split(spn, "/")`). -/
def splitSlash (l : List Nat) : List (List Nat) :=
  l.foldr
    (fun b acc =>
      if b = 47 then [] :: acc
      else
        match acc with
        | h :: t => (b :: h) :: t
        | [] => [[b]])
    [[]]

/-- GetServiceTicket (client): split the SPN, run the TGS exchange, and on
success add exactly the one entry built from the reply to the cache; the
updated client is returned alongside the result. -/
def GetServiceTicket (env : TGSEnv) (cl : Client) (spn : List Nat) :
    Except KrbClientError Unit × Client :=
  let princ : PrincipalName := { nameType := KRB_NT_PRINCIPAL, nameString := splitSlash spn }
  match (TGSExchange env cl princ false).1 with
  | .error e => (.error e, cl)
  | .ok (_, tgsRep) =>
    (.ok (), { cl with cache := cl.cache ++
      [{ ticket := tgsRep.ticket, authTime := tgsRep.decPart.authTime,
         endTime := tgsRep.decPart.endTime, renewTill := tgsRep.decPart.renewTill }] })

/-! ### APReq.go -/

/-- Message type number of KRB_AP_REQ (iana/msgtype). -/
def KRB_AP_REQ : Int := 14

/-- The intermediate decoded form of an AP-REQ (`marshalAPReq`): the
ticket still raw bytes inside its explicit context tag. -/
structure MarshalAPReq where
  pvno : Int
  msgType : Int
  apOptions : List Nat
  ticketBytes : List Nat
  authenticator : EncryptedData
deriving DecidableEq, Repr

/-- AP-REQ (messages) with its ticket decoded. -/
structure APReq where
  pvno : Int
  msgType : Int
  apOptions : List Nat
  ticket : Ticket
  authenticator : EncryptedData
deriving DecidableEq, Repr

/-- APReq Unmarshal (messages/APReq.go): decode the outer sequence with
the generic ASN.1 engine `dec` (an external collaborator), reject a
msg-type other than KRB_AP_REQ, copy the decoded fields, and decode the
wrapped ticket with `decTicket`. -/
def APReqUnmarshal (dec : List Nat → Except String MarshalAPReq)
    (decTicket : List Nat → Except String Ticket) (b : List Nat) : Except String APReq :=
  match dec b with
  | .error e => .error e
  | .ok m =>
    if m.msgType ≠ KRB_AP_REQ then .error "Message ID does not indicate a KRB_AS_REP"
    else
      match decTicket m.ticketBytes with
      | .error _ => .error "Error unmarshalling ticket in AP_REQ"
      | .ok t =>
        .ok { pvno := m.pvno, msgType := m.msgType, apOptions := m.apOptions,
              ticket := t, authenticator := m.authenticator }

/-! ### Concrete inputs and evaluated values used by the closed theorems -/

/-- An AES128 key of sixteen 0x07 bytes. -/
def kt17 : EncryptionKey := { keyType := 17, keyValue := List.replicate 16 7 }

/-- A fixed confounder standing in for the random bytes. -/
def conf16 : List Nat := (List.range 16).map (fun i => i + 100)

/-- A 16-byte plaintext. -/
def pt16 : List Nat := (List.range 16).map (fun i => i * 3 % 256)

/-- A 16-byte marshalled PA-ENC-TS-ENC stand-in. -/
def paTS16 : List Nat := List.replicate 16 65

/-- Cipher of `GetEncryptedData pt16 kt17 0 1 conf16`. -/
def cipher0pt16 : List Nat := [247, 206, 50, 222, 43, 170, 246, 57, 100, 209, 123, 255, 217, 33, 135, 111, 151, 219, 140, 207, 171, 58, 212, 10, 136, 170, 104, 182, 138, 125, 189, 1, 21, 17, 121, 79, 26, 50, 185, 192, 114, 65, 184, 207]

/-- Cipher of `GetEncryptedData paTS16 kt17 0 1 conf16`. -/
def cipher0paTS : List Nat := [193, 198, 43, 228, 83, 113, 35, 91, 66, 255, 244, 99, 39, 206, 209, 38, 151, 219, 140, 207, 171, 58, 212, 10, 136, 170, 104, 182, 138, 125, 189, 1, 140, 246, 223, 58, 84, 61, 117, 108, 22, 51, 13, 108]

/-- Cipher of `GetEncryptedData paTS16 kt17 1 1 conf16`. -/
def cipher1paTS : List Nat := [104, 41, 73, 66, 225, 215, 29, 198, 152, 2, 220, 90, 73, 93, 77, 62, 127, 20, 103, 149, 224, 58, 248, 218, 91, 111, 30, 91, 40, 43, 147, 210, 69, 119, 149, 130, 205, 183, 50, 174, 39, 200, 182, 174]

/-- Ke derived from `kt17` at usage 5. -/
def keC3 : List Nat := [231, 91, 240, 82, 252, 8, 111, 162, 149, 42, 200, 175, 72, 210, 146, 109]

/-- Ki derived from `kt17` at usage 5. -/
def kiC3 : List Nat := [23, 188, 166, 165, 15, 2, 129, 18, 91, 77, 255, 140, 37, 202, 129, 40]

/-- Ki derived from `kt17` at usage 0 (derivation happens even there). -/
def kiZero : List Nat := [94, 74, 3, 196, 92, 86, 53, 12, 34, 66, 4, 244, 132, 73, 85, 215]

/-- The CTS encryption of `conf16 ++ pt16` under `keC3`. -/
def bodyC3 : List Nat := [224, 190, 49, 65, 190, 217, 158, 243, 54, 122, 207, 32, 5, 233, 43, 185, 104, 20, 46, 247, 98, 26, 23, 56, 237, 111, 56, 19, 154, 246, 184, 42]

/-- The salt "FIRST". -/
def saltFIRST : List Nat := [70, 73, 82, 83, 84]

/-- The salt "SECOND". -/
def saltSECOND : List Nat := [83, 69, 67, 79, 78, 68]

/-- PA-DATA sequence: a PA-ETYPE-INFO2 entry followed by a PA-PW-SALT. -/
def c4pas : List PAData :=
  [ { padataType := 19, padataValue := .info2 [{ etype := 18, salt := saltFIRST, s2kparams := [0, 0, 0, 1] }] },
    { padataType := 3, padataValue := .bytes saltSECOND } ]

/-- Principal name with the single component "user". -/
def c4cn : PrincipalName := { nameType := 1, nameString := [[117, 115, 101, 114]] }

/-- The realm "EXAMPLE.COM". -/
def c4realm : List Nat := [69, 88, 65, 77, 80, 76, 69, 46, 67, 79, 77]

/-- The password "password". -/
def c4pw : List Nat := [112, 97, 115, 115, 119, 111, 114, 100]

/-- The AES256 key derived with salt "SECOND" and one PBKDF2 iteration. -/
def c4key32 : List Nat := [94, 44, 44, 51, 174, 237, 160, 66, 78, 15, 250, 199, 131, 189, 163, 93, 9, 203, 34, 64, 146, 236, 245, 52, 89, 253, 170, 250, 9, 252, 232, 111]

/-- PA-DATA sequence whose PA-ETYPE-INFO2 entry switches to enctype 17. -/
def c5pas : List PAData :=
  [ { padataType := 19, padataValue := .info2
        [{ etype := 17, salt := [69, 88, 65, 77, 80, 76, 69, 46, 67, 79, 77, 117, 115, 101, 114],
           s2kparams := [0, 0, 0, 1] }] } ]

/-- The salt "EXAMPLE.COMuser". -/
def c5salt : List Nat := [69, 88, 65, 77, 80, 76, 69, 46, 67, 79, 77, 117, 115, 101, 114]

/-- The AES128 key derived for c5pas (16 bytes). -/
def c5key16 : List Nat := [75, 74, 79, 57, 120, 227, 125, 130, 129, 144, 10, 23, 52, 184, 40, 232]

/-- The KRB-ERROR carrying KDC_ERR_PREAUTH_REQUIRED. -/
def c1KRBErr : KRBError := { errorCode := 25, eText := [] }

/-- A concrete ticket. -/
def c1Tkt : Ticket :=
  { realm := [69], sname := { nameType := 2, nameString := [[107]] },
    encPart := { etype := 17, kvno := 1, cipher := [9] } }

/-- A concrete AS-REP that decodes from the retried reply. -/
def c1Rep : ASRep :=
  { ticket := c1Tkt,
    decPart := { authTime := 10, endTime := 20, renewTill := 30, keyExpiration := 40,
                 key := { keyType := 17, keyValue := List.replicate 16 1 } } }

/-- Environment for the AS exchange in which the KDC first demands
preauthentication (reply [1] decodes only as a KRB-ERROR with code 25)
and then answers the retry (reply [2]) with a valid AS-REP; decryption
and validation accept. The marshaller tags a request with its PA-DATA
count. -/
def c1Env : ASEnv :=
  { isConfigured := true
    newASReq := { paData := [] }
    marshal := fun a => .ok [a.paData.length]
    replies := [.ok [1], .ok [2]]
    unASRep := fun rb => if rb = [2] then .ok c1Rep else .error "not an AS_REP"
    unKRBError := fun rb => if rb = [1] then .ok c1KRBErr else .error "not a KRB_ERROR"
    paEncTSEnc := .ok paTS16
    tktEnctypeIds := [17]
    keytabKey := fun _ => .ok kt17
    confounder := conf16
    decryptASRep := fun ar => .ok ar
    isValid := fun _ _ => true }

/-- The same scenario with a marshaller that emits the concatenated
PA-DATA values, so the bytes handed to the transport expose the
PA-ENC-TIMESTAMP cipher. -/
def c2Env : ASEnv :=
  { c1Env with
    marshal := fun a => .ok ((a.paData.map (fun p => pavBytes p.padataValue)).flatten)
    unASRep := fun rb => if rb = [1] then .error "not an AS_REP" else .ok c1Rep }

/-- Ke derived from `kt17` at usage 0. -/
def ke0 : List Nat := [174, 79, 155, 101, 39, 51, 74, 115, 40, 187, 169, 81, 222, 156, 251, 235]

/-- The garbage CTS decryption of the usage-0 cipher body under `ke0`. -/
def bGarb : List Nat := [239, 61, 86, 81, 103, 113, 159, 197, 148, 155, 240, 146, 24, 14, 94, 224, 183, 93, 226, 87, 223, 214, 255, 59, 102, 88, 25, 212, 22, 28, 189, 133]

/-- Ke derived from `kt17` at usage 1. -/
def ke1 : List Nat := [126, 75, 41, 124, 192, 104, 169, 208, 245, 101, 82, 13, 192, 178, 73, 157]

/-- Ki derived from `kt17` at usage 1. -/
def ki1 : List Nat := [139, 30, 226, 62, 229, 189, 210, 140, 4, 34, 4, 70, 75, 111, 193, 99]

/-- The CTS encryption of `conf16 ++ paTS16` under `ke1`. -/
def body1 : List Nat := [104, 41, 73, 66, 225, 215, 29, 198, 152, 2, 220, 90, 73, 93, 77, 62, 127, 20, 103, 149, 224, 58, 248, 218, 91, 111, 30, 91, 40, 43, 147, 210]

/-- PBKDF2 of the password with salt "SECOND", one iteration, 32 bytes. -/
def tkSECOND : List Nat := [157, 46, 155, 38, 145, 204, 41, 69, 187, 12, 51, 213, 172, 162, 196, 151, 46, 240, 78, 34, 158, 161, 124, 125, 96, 116, 213, 228, 174, 77, 16, 40]

/-- PBKDF2 of the password with salt "FIRST", one iteration, 32 bytes. -/
def tkFIRST : List Nat := [212, 31, 224, 245, 3, 44, 249, 182, 183, 219, 218, 136, 209, 139, 153, 252, 162, 47, 27, 4, 27, 193, 150, 123, 19, 22, 156, 101, 8, 246, 13, 86]

/-- PBKDF2 of the password with salt "EXAMPLE.COMuser", one iteration, 16 bytes. -/
def tkC5 : List Nat := [132, 21, 192, 185, 45, 215, 174, 204, 45, 214, 197, 65, 58, 64, 34, 170]

/-- Client with no session. -/
def clNone : Client := { session := none, cache := [] }

/-- A populated session. -/
def sessT : Session :=
  { authTime := 1, endTime := 2, renewTill := 3, tgt := c1Tkt, sessionKey := kt17,
    sessionKeyExpiration := 4 }

/-- Client with a session and an empty cache. -/
def clS : Client := { session := some sessT, cache := [] }

/-- A concrete decrypted TGS-REP. -/
def tgsRepT : TGSRep := { ticket := c1Tkt, decPart := { authTime := 5, endTime := 6, renewTill := 7 } }

/-- A TGS environment in which every collaborator succeeds. -/
def tgsEnvOk : TGSEnv :=
  { newTGSReq := fun _ _ _ _ => .ok { tag := 1 }
    marshal := fun r => .ok [r.tag]
    replies := [.ok [9]]
    unTGSRep := fun _ => .ok tgsRepT
    decryptTGSRep := fun r _ => .ok r
    isValid := fun _ _ => true }

/-- The same TGS environment with a failing request builder. -/
def tgsEnvBad : TGSEnv := { tgsEnvOk with newTGSReq := fun _ _ _ _ => .error "no" }

/-- A decoded AP-REQ skeleton with msg-type 14. -/
def c9m : MarshalAPReq :=
  { pvno := 5, msgType := 14, apOptions := [0], ticketBytes := [1],
    authenticator := { etype := 17, kvno := 0, cipher := [2] } }

/-- The same skeleton with a wrong msg-type. -/
def c9mBad : MarshalAPReq := { c9m with msgType := 10 }

/-- A toy ASN.1 decoder: bytes [0] decode to `c9m`, others to `c9mBad`. -/
def c9dec (b : List Nat) : Except String MarshalAPReq :=
  if b = [0] then .ok c9m else .ok c9mBad

/-- A toy ticket decoder. -/
def c9decT (_ : List Nat) : Except String Ticket := .ok c1Tkt

/-! ### Supporting lemmas -/

/-- Length of a big-endian encoding. -/
theorem natToBe_length (x len : Nat) : (natToBe x len).length = len := by
  simp [natToBe]

/-- Length of the key-schedule worker output. -/
theorem keyWordsGo_length (key : List Nat) (nk : Nat) :
    ∀ (fuel i : Nat) (acc : List Nat), (keyWordsGo key nk fuel i acc).length = fuel + acc.length
  | 0, _, acc => by simp [keyWordsGo]
  | fuel + 1, i, acc => by
    simp [keyWordsGo, keyWordsGo_length key nk fuel (i + 1)]
    omega

/-- The round-key list is never empty. -/
theorem roundKeysN_ne_nil (key : List Nat) (nk nr : Nat) : roundKeysN key nk nr ≠ [] := by
  have hlen : (keyWordsAux key nk (4 * (nr + 1))).length = 4 * (nr + 1) := by
    simpa [keyWordsAux] using keyWordsGo_length key nk (4 * (nr + 1)) 0 []
  rcases h : keyWordsAux key nk (4 * (nr + 1)) with _ | ⟨w, ws⟩
  · rw [h] at hlen; simp at hlen
  · simp [roundKeysN, chunkList, h, chunkListAux]

/-- AES block decryption always yields 16 bytes. -/
theorem aesDecBlock_length (key : List Nat) (nk nr : Nat) (input : List Nat) :
    (aesDecBlock key nk nr input).length = 16 := by
  rcases h : (roundKeysN key nk nr).reverse with _ | ⟨rk, rks⟩
  · exact absurd (List.reverse_eq_nil_iff.mp h) (roundKeysN_ne_nil key nk nr)
  · simp [aesDecBlock, h, natToBe_length]

/-- The first CBC-decrypted block gives the flattened output at least one
full block of bytes. -/
theorem cbcDec_flatten_ge (key : List Nat) (nk nr : Nat) (prev : List Nat) (blocks : List (List Nat))
    (hprev : prev.length = 16) (hb : blocks ≠ []) :
    16 ≤ ((cbcDecBlocks key nk nr prev blocks).flatten).length := by
  rcases blocks with _ | ⟨c, rest⟩
  · exact absurd rfl hb
  · simp [cbcDecBlocks, xorBytes, aesDecBlock_length, hprev]

/-- A successful CTS decryption yields at least one block of plaintext. -/
theorem ctsDecrypt_ok_ge (ksize nk nr : Nat) (key msg b : List Nat)
    (h : ctsDecrypt ksize nk nr key msg = .ok b) : 16 ≤ b.length := by
  unfold ctsDecrypt at h
  split at h
  · exact absurd h (by simp)
  · split at h
    · exact absurd h (by simp)
    · split at h
      · rename_i hk hlt h16
        have hb : b = xorBytes (aesDecBlock key nk nr msg) zeroIV := by
          simpa using h.symm
        subst hb
        simp [xorBytes, aesDecBlock_length, zeroIV]
      · rename_i hk hlt h16
        have hb : b = (cbcDecBlocks key nk nr zeroIV
            (chunkList 16 (msg.take (((msg.length + 15) / 16 - 2) * 16)) ++
              [msg.drop (((msg.length + 15) / 16 - 1) * 16) ++
                (aesDecBlock key nk nr
                  ((msg.drop (((msg.length + 15) / 16 - 2) * 16)).take 16)).drop
                  (msg.length - ((msg.length + 15) / 16 - 1) * 16)])).flatten ++
            xorBytes ((aesDecBlock key nk nr
              ((msg.drop (((msg.length + 15) / 16 - 2) * 16)).take 16)).take
                (msg.length - ((msg.length + 15) / 16 - 1) * 16))
              (msg.drop (((msg.length + 15) / 16 - 1) * 16)) := by
          simpa using h.symm
        subst hb
        have := cbcDec_flatten_ge key nk nr zeroIV
          (chunkList 16 (msg.take (((msg.length + 15) / 16 - 2) * 16)) ++
            [msg.drop (((msg.length + 15) / 16 - 1) * 16) ++
              (aesDecBlock key nk nr
                ((msg.drop (((msg.length + 15) / 16 - 2) * 16)).take 16)).drop
                (msg.length - ((msg.length + 15) / 16 - 1) * 16)])
          (by simp [zeroIV]) (by simp)
        simp only [List.length_append]
        omega

/-- A slice `b[:len-n]` with `n` within bounds succeeds. -/
theorem goSliceTo_sub (b : List Nat) (n : Nat) (h : n ≤ b.length) :
    goSliceTo b ((b.length : Int) - (n : Int)) = some (b.take (b.length - n)) := by
  unfold goSliceTo
  rw [if_pos ⟨by omega, by omega⟩]
  have ht : ((b.length : Int) - (n : Int)).toNat = b.length - n := by omega
  rw [ht]

/-- A slice `b[:i]` with negative `i` panics. -/
theorem goSliceTo_neg (b : List Nat) (i : Int) (h : i < 0) : goSliceTo b i = none := by
  unfold goSliceTo
  rw [if_neg (by omega)]

/-- A slice `b[len-n:]` with `n` within bounds succeeds. -/
theorem goSliceFrom_sub (b : List Nat) (n : Nat) (h : n ≤ b.length) :
    goSliceFrom b ((b.length : Int) - (n : Int)) = some (b.drop (b.length - n)) := by
  unfold goSliceFrom
  rw [if_pos ⟨by omega, by omega⟩]
  have ht : ((b.length : Int) - (n : Int)).toNat = b.length - n := by omega
  rw [ht]

/-- A slice `b[i:]` with `i` within bounds succeeds. -/
theorem goSliceFrom_pos (b : List Nat) (i : Int) (h0 : 0 ≤ i) (h : i ≤ (b.length : Int)) :
    goSliceFrom b i = some (b.drop i.toNat) := by
  unfold goSliceFrom
  rw [if_pos ⟨h0, h⟩]

/-- VerifyIntegrity never panics on a ciphertext carrying at least the
truncated MAC. -/
theorem verifyIntegrity_isSome (key ct pt : List Nat) (usage : Nat) (e : AesEType)
    (h : 12 ≤ ct.length) : ∃ r, VerifyIntegrity key ct pt usage e = some r := by
  unfold VerifyIntegrity
  have h12 : hmacBitLength e / 8 = 12 := by cases e <;> rfl
  rw [h12, goSliceFrom_sub ct 12 h]
  exact ⟨_, rfl⟩

/-- C10: DecryptEncPart performs only in-range slicing once the cipher
carries at least the 12 MAC bytes (the result is a normal return, never a
modelled panic); and there is no explicit lower-bound check, so when the
preceding key derivation succeeds, a cipher shorter than 12 bytes panics
on the slice rather than being rejected through the error return. -/
theorem c10_decrypt_slicing (e : AesEType) (key : List Nat) (pe : EncryptedData) (usage : Nat) :
    (12 ≤ pe.cipher.length → (DecryptEncPart key pe e usage).isSome = true)
    ∧ (∀ k, etypeDeriveKey e key (GetUsageKe usage) = .ok k →
        pe.cipher.length < 12 → DecryptEncPart key pe e usage = none) := by
  have h12e : hmacBitLength e / 8 = 12 := by cases e <;> rfl
  constructor
  · intro hlen
    unfold DecryptEncPart
    rw [h12e]
    rcases hdk : etypeDeriveKey e key (GetUsageKe usage) with edk | k
    · simp
    · rw [goSliceTo_sub pe.cipher 12 hlen]
      rcases hdec : etypeDecrypt e k (pe.cipher.take (pe.cipher.length - 12)) with edec | b
      · simp [hdec]
      · obtain ⟨r, hv⟩ := verifyIntegrity_isSome key pe.cipher b usage e hlen
        have hb : 16 ≤ b.length := ctsDecrypt_ok_ge _ _ _ _ _ _ hdec
        have hc : confounderByteSize e = 16 := by cases e <;> rfl
        rcases r
        · simp [hdec, hv]
        · simp [hdec, hv, hc, goSliceFrom_pos b 16 (by omega) (by omega)]
  · intro k hdk hlt
    unfold DecryptEncPart
    rw [h12e]
    simp [hdk, goSliceTo_neg pe.cipher ((pe.cipher.length : Int) - 12) (by omega)]

/-- Folding append over a list of byte strings from an initial value. -/
theorem foldl_append_flatten (l : List (List Nat)) :
    ∀ init : List Nat, l.foldl (fun acc n => acc ++ n) init = init ++ l.flatten := by
  induction l with
  | nil => intro init; simp
  | cons x xs ih =>
    intro init
    simp [List.foldl, ih (init ++ x), List.append_assoc]

/-- GetSalt concatenates the realm and then every name component. -/
theorem GetSalt_eq (pn : PrincipalName) (realm : List Nat) :
    GetSalt pn realm = realm ++ pn.nameString.flatten := by
  simp [GetSalt, foldl_append_flatten]

/-- C7: when the PA-DATA scan leaves the salt empty, GetKeyFromPassword
calls string-to-key with the default salt, the realm concatenated with
every principal name component in order with no separator. -/
theorem c7_default_salt (passwd : List Nat) (cn : PrincipalName) (realm : List Nat)
    (etypeId : Int) (pas : List PAData) (et0 et : AesEType) (sk : List Nat)
    (h0 : GetEtype etypeId = .ok et0)
    (hl : paLoop etypeId 0 et0 [] (defaultS2KParams et0) pas = some (.ok (et, [], sk))) :
    GetKeyFromPassword passwd cn realm etypeId pas =
      (match stringToKey et passwd (realm ++ cn.nameString.flatten) sk with
       | .error e => some (.error ("Error deriving key from string: " ++ e))
       | .ok k => some (.ok ({ keyType := etypeId, keyValue := k }, et))) := by
  unfold GetKeyFromPassword
  simp only [h0]
  rw [hl]
  simp [GetSalt_eq]

/-- C8: TGSExchange on a client with no session fails before anything is
sent to the KDC; GetServiceTicket leaves the cache unchanged whenever any
step of the exchange fails, and on success appends exactly one entry
(leaving the session untouched). -/
theorem c8_tgs_session_cache (env : TGSEnv) (cl : Client) (spn : List Nat)
    (princ : PrincipalName) (renewal : Bool) :
    (cl.session = none →
      TGSExchange env cl princ renewal =
        (.error (.msg "Error client does not have a session. Client needs to login first"), []))
    ∧ (∀ e, (GetServiceTicket env cl spn).1 = .error e → (GetServiceTicket env cl spn).2 = cl)
    ∧ ((GetServiceTicket env cl spn).1 = .ok () →
        (∃ en, (GetServiceTicket env cl spn).2.cache = cl.cache ++ [en])
        ∧ (GetServiceTicket env cl spn).2.session = cl.session) := by
  refine ⟨fun h => ?_, ?_, ?_⟩
  · unfold TGSExchange
    rw [h]
  · intro e he
    unfold GetServiceTicket at he ⊢
    rcases hx : (TGSExchange env cl { nameType := KRB_NT_PRINCIPAL, nameString := splitSlash spn } false).1
      with e2 | ⟨req, rep⟩ <;> simp [hx] at he ⊢
  · intro hok
    unfold GetServiceTicket at hok ⊢
    rcases hx : (TGSExchange env cl { nameType := KRB_NT_PRINCIPAL, nameString := splitSlash spn } false).1
      with e2 | ⟨req, rep⟩ <;> simp [hx] at hok ⊢

/-- C9: for every byte string the ASN.1 engine decodes as an AP-REQ,
Unmarshal errors whenever the decoded msg-type is not 14, and with
msg-type 14 (and a decodable wrapped ticket) succeeds, copying the decoded
pvno, msg-type, ap-options, ticket and authenticator into the result. -/
theorem c9_apreq_unmarshal (dec : List Nat → Except String MarshalAPReq)
    (decTicket : List Nat → Except String Ticket) (b : List Nat) (m : MarshalAPReq)
    (hm : dec b = .ok m) :
    (m.msgType ≠ KRB_AP_REQ → ∃ e, APReqUnmarshal dec decTicket b = .error e)
    ∧ (m.msgType = KRB_AP_REQ → ∀ t, decTicket m.ticketBytes = .ok t →
        APReqUnmarshal dec decTicket b =
          .ok { pvno := m.pvno, msgType := m.msgType, apOptions := m.apOptions,
                ticket := t, authenticator := m.authenticator }) := by
  constructor
  · intro hne
    unfold APReqUnmarshal
    rw [hm]
    simp [hne]
  · intro he t ht
    unfold APReqUnmarshal
    rw [hm]
    simp [he, ht]

/-- Decomposition of GetEncryptedData: the encryption key is the provided
key exactly when usage = 0 and the Ke-derived key otherwise, while the
integrity-HMAC key is always derived with the Ki constant of the usage
number — also at usage 0. -/
theorem GetEncryptedData_via (key : EncryptionKey) (usage : Int) (kvno : Int)
    (conf pt ke ki st C : List Nat) (et : AesEType)
    (hety : GetEtype key.keyType = .ok et)
    (hke : etypeDeriveKey et key.keyValue (GetUsageKe (uint32Of usage)) = .ok ke)
    (hki : etypeDeriveKey et key.keyValue (GetUsageKi (uint32Of usage)) = .ok ki)
    (henc : etypeEncrypt et (if usage = 0 then key.keyValue else ke) (conf ++ pt) = .ok (st, C)) :
    GetEncryptedData pt key usage kvno conf =
      .ok { etype := key.keyType, kvno := kvno,
            cipher := C ++ (hmacSha1 ki (conf ++ pt)).take (hmacBitLength et / 8) } := by
  unfold GetEncryptedData
  simp only [hety]
  by_cases h0 : usage = 0
  · rw [if_pos h0] at henc
    subst h0
    simp [henc, GetIntegrityHash, getHash, hki, Except.toOption]
  · rw [if_neg h0] at henc
    simp [h0, hke, henc, GetIntegrityHash, getHash, hki, Except.toOption]

/-- C2 (amended): when the first reply carries KDC_ERR_PREAUTH_REQUIRED,
the retried AS-REQ appends a PA-ENC-TIMESTAMP whose value is the cipher
of GetEncryptedData invoked with usage 0 and kvno 1 on the keytab key —
the key is used directly, with no Ke derivation. -/
theorem c2_preauth_usage_zero (env : ASEnv) (b rb paTSb b2 : List Nat) (s1 : String)
    (kerr : KRBError) (key : EncryptionKey) (ed : EncryptedData) (et : AesEType)
    (hc : env.isConfigured = true)
    (hm : env.marshal env.newASReq = .ok b)
    (hr : getReply env 0 = .ok rb)
    (hua : env.unASRep rb = .error s1)
    (huk : env.unKRBError rb = .ok kerr)
    (hcode : kerr.errorCode = KDC_ERR_PREAUTH_REQUIRED)
    (hts : env.paEncTSEnc = .ok paTSb)
    (hety : GetEtype ((sortDesc env.tktEnctypeIds).getD 0 0) = .ok et)
    (hkey : env.keytabKey ((sortDesc env.tktEnctypeIds).getD 0 0) = .ok key)
    (hed : GetEncryptedData paTSb key 0 1 env.confounder = .ok ed)
    (hm2 : env.marshal { env.newASReq with paData := env.newASReq.paData ++
             [{ padataType := PA_ENC_TIMESTAMP, padataValue := .bytes ed.cipher }] } = .ok b2) :
    (ASExchange env).2.2 = [b, b2] := by
  unfold ASExchange
  simp only [hc, Bool.not_true, Bool.false_eq_true, if_false, hm, hr, hua, huk, hcode, if_pos rfl,
    hts, hety, hkey, Except.toOption, Option.getD, hed, hm2]
  rcases h1 : getReply env 1 with e1 | rb2 <;> simp only [h1]
  · rfl
  · rcases h2 : env.unASRep rb2 with e2 | ar2 <;> simp [h2]

/-- Decomposition of VerifyIntegrity: with the Ki derivation given, the
verdict is the comparison of the trailing 12 cipher bytes with the
truncated HMAC of the plaintext under Ki. -/
theorem VerifyIntegrity_via (key ct pt : List Nat) (usage : Nat) (e : AesEType) (ki : List Nat)
    (h12 : 12 ≤ ct.length)
    (hki : etypeDeriveKey e key (GetUsageKi usage) = .ok ki) :
    VerifyIntegrity key ct pt usage e =
      some (decide (ct.drop (ct.length - 12) = (hmacSha1 ki pt).take 12)) := by
  unfold VerifyIntegrity
  have h12e : hmacBitLength e / 8 = 12 := by cases e <;> rfl
  rw [h12e, goSliceFrom_sub ct 12 h12]
  simp [GetIntegrityHash, getHash, hki, Except.toOption, h12e]

/-- Decomposition of DecryptEncPart on the integrity-failure path. -/
theorem DecryptEncPart_error_of (key : List Nat) (pe : EncryptedData) (e : AesEType) (usage : Nat)
    (ke b : List Nat)
    (hke : etypeDeriveKey e key (GetUsageKe usage) = .ok ke)
    (h12 : 12 ≤ pe.cipher.length)
    (hdec : etypeDecrypt e ke (pe.cipher.take (pe.cipher.length - 12)) = .ok b)
    (hv : VerifyIntegrity key pe.cipher b usage e = some false) :
    DecryptEncPart key pe e usage =
      some (.error "Error decrypting encrypted part: integrity verification failed") := by
  unfold DecryptEncPart
  have h12e : hmacBitLength e / 8 = 12 := by cases e <;> rfl
  rw [h12e]
  simp only [hke]
  rw [goSliceTo_sub pe.cipher 12 h12]
  simp [hdec, hv]

/-- Decomposition of stringToKey: with well-formed s2kparams it is DK of
the PBKDF2 output with the constant "kerberos". -/
theorem stringToKey_via (e : AesEType) (pw salt sk2p tkey : List Nat)
    (hlen : sk2p.length = 4) (hiter : beToNat sk2p ≠ 0)
    (htk : pbkdf2 pw salt (beToNat sk2p) (keyByteSize e) = tkey) :
    stringToKey e pw salt sk2p = etypeDeriveKey e tkey kerberosConstant := by
  unfold stringToKey
  rw [if_neg (by simp [hlen]), if_neg hiter]
  simp [randomToKey, htk]

/-- Decomposition of GetKeyFromPassword: with the enctype lookup, PA-DATA
scan and string-to-key results given, the returned key carries the
requested etypeId and the derived bytes. -/
theorem GetKeyFromPassword_via (passwd : List Nat) (cn : PrincipalName) (realm : List Nat)
    (etypeId : Int) (pas : List PAData) (et0 et : AesEType) (salt0 sk k : List Nat)
    (h0 : GetEtype etypeId = .ok et0)
    (hl : paLoop etypeId 0 et0 [] (defaultS2KParams et0) pas = some (.ok (et, salt0, sk)))
    (hs : stringToKey et passwd (if salt0 = [] then GetSalt cn realm else salt0) sk = .ok k) :
    GetKeyFromPassword passwd cn realm etypeId pas =
      some (.ok ({ keyType := etypeId, keyValue := k }, et)) := by
  unfold GetKeyFromPassword
  simp only [h0]
  rw [hl]
  simp [hs]

/-! ### Claim theorems -/

set_option maxRecDepth 8000 in
/-- C1: in the environment where the first reply is KRB-ERROR 25 and the
retried reply unmarshals as a valid AS-REP (decryption and validation
would accept), ASExchange still returns the original KRB-ERROR and
establishes no session: the source falls through to `return krberr` after
a successful retry, discarding the AS-REP it just unmarshalled. Both
requests were handed to the transport. -/
theorem c1_preauth_retry_discarded :
    ASExchange c1Env = (.error (.krb c1KRBErr), none, [[0], [1]]) := by decide

set_option maxRecDepth 8000 in
/-- C2 (counterexample): the PA-ENC-TIMESTAMP value the retry sends is the
cipher GetEncryptedData produces at usage 0, and it differs from the
cipher usage 1 would produce — refuting that usage = 1 is passed to the
encrypted-data engine. -/
theorem c2_counterexample :
    (ASExchange c2Env).2.2 = [[], cipher0paTS]
    ∧ GetEncryptedData paTS16 kt17 0 1 conf16 = .ok { etype := 17, kvno := 1, cipher := cipher0paTS }
    ∧ GetEncryptedData paTS16 kt17 1 1 conf16 = .ok { etype := 17, kvno := 1, cipher := cipher1paTS }
    ∧ cipher0paTS ≠ cipher1paTS :=
  ⟨by decide, by decide,
   (GetEncryptedData_via kt17 1 1 conf16 paTS16 ke1 ki1 [] body1 .aes128
      (by decide) (by decide) (by decide) (by decide)).trans (by decide),
   by decide⟩

set_option maxRecDepth 8000 in
/-- Witness for C2 (amended) at the concrete environment: every hypothesis
of the theorem holds there and the second request carries the usage-0
cipher. -/
theorem c2_preauth_usage_zero_witness :
    c2Env.isConfigured = true
    ∧ c2Env.marshal c2Env.newASReq = .ok []
    ∧ getReply c2Env 0 = .ok [1]
    ∧ c2Env.unASRep [1] = .error "not an AS_REP"
    ∧ c2Env.unKRBError [1] = .ok c1KRBErr
    ∧ c1KRBErr.errorCode = KDC_ERR_PREAUTH_REQUIRED
    ∧ c2Env.paEncTSEnc = .ok paTS16
    ∧ GetEtype ((sortDesc c2Env.tktEnctypeIds).getD 0 0) = .ok .aes128
    ∧ c2Env.keytabKey ((sortDesc c2Env.tktEnctypeIds).getD 0 0) = .ok kt17
    ∧ GetEncryptedData paTS16 kt17 0 1 c2Env.confounder =
        .ok { etype := 17, kvno := 1, cipher := cipher0paTS }
    ∧ c2Env.marshal { c2Env.newASReq with paData := c2Env.newASReq.paData ++
        [{ padataType := PA_ENC_TIMESTAMP, padataValue := .bytes cipher0paTS }] } = .ok cipher0paTS
    ∧ (ASExchange c2Env).2.2 = [[], cipher0paTS] :=
  ⟨by decide, by decide, by decide, by decide, by decide, by decide, by decide, by decide, by decide,
   by decide, by decide,
   c2_preauth_usage_zero c2Env [] [1] paTS16 cipher0paTS "not an AS_REP" c1KRBErr kt17
     { etype := 17, kvno := 1, cipher := cipher0paTS } .aes128
     (by decide) (by decide) (by decide) (by decide) (by decide) (by decide) (by decide) (by decide)
     (by decide) (by decide) (by decide)⟩

set_option maxRecDepth 8000 in
/-- C3 (counterexample): at usage 0 the appended MAC is not the HMAC under
the provided key: the integrity key is the derived `kiZero`, which differs
from the key itself — refuting that usage = 0 uses the provided key
directly as the integrity-HMAC key Ki. -/
theorem c3_counterexample :
    GetEncryptedData pt16 kt17 0 1 conf16 = .ok { etype := 17, kvno := 1, cipher := cipher0pt16 }
    ∧ cipher0pt16.drop (cipher0pt16.length - 12) ≠ (hmacSha1 kt17.keyValue (conf16 ++ pt16)).take 12
    ∧ etypeDeriveKey .aes128 kt17.keyValue (GetUsageKi 0) = .ok kiZero
    ∧ kiZero ≠ kt17.keyValue
    ∧ cipher0pt16.drop (cipher0pt16.length - 12) = (hmacSha1 kiZero (conf16 ++ pt16)).take 12 :=
  ⟨by decide, by decide, by decide, by decide, by decide⟩

/-- C3 (amended): in GetEncryptedData the encryption key Ke is the
provided key exactly when usage = 0 and the Ke-derived key otherwise,
while the integrity-HMAC key Ki is always derived with the Ki constant of
the usage number — including at usage 0. -/
theorem c3_usage_key_selection (key : EncryptionKey) (usage : Int) (kvno : Int)
    (conf pt ke ki st C : List Nat) (et : AesEType)
    (hety : GetEtype key.keyType = .ok et)
    (hke : etypeDeriveKey et key.keyValue (GetUsageKe (uint32Of usage)) = .ok ke)
    (hki : etypeDeriveKey et key.keyValue (GetUsageKi (uint32Of usage)) = .ok ki)
    (henc : etypeEncrypt et (if usage = 0 then key.keyValue else ke) (conf ++ pt) = .ok (st, C)) :
    GetEncryptedData pt key usage kvno conf =
      .ok { etype := key.keyType, kvno := kvno,
            cipher := C ++ (hmacSha1 ki (conf ++ pt)).take (hmacBitLength et / 8) } :=
  GetEncryptedData_via key usage kvno conf pt ke ki st C et hety hke hki henc

set_option maxRecDepth 8000 in
/-- Witness for C3 (amended) at usage 5 on concrete inputs. -/
theorem c3_usage_key_selection_witness :
    GetEtype kt17.keyType = .ok .aes128
    ∧ etypeDeriveKey .aes128 kt17.keyValue (GetUsageKe (uint32Of 5)) = .ok keC3
    ∧ etypeDeriveKey .aes128 kt17.keyValue (GetUsageKi (uint32Of 5)) = .ok kiC3
    ∧ etypeEncrypt .aes128 (if (5 : Int) = 0 then kt17.keyValue else keC3) (conf16 ++ pt16) =
        .ok ([], bodyC3)
    ∧ GetEncryptedData pt16 kt17 5 1 conf16 =
        .ok { etype := kt17.keyType, kvno := 1,
              cipher := bodyC3 ++ (hmacSha1 kiC3 (conf16 ++ pt16)).take (hmacBitLength .aes128 / 8) } :=
  ⟨by decide, by decide, by decide, by decide,
   c3_usage_key_selection kt17 5 1 conf16 pt16 keC3 kiC3 [] bodyC3 .aes128
     (by decide) (by decide) (by decide) (by decide)⟩

set_option maxRecDepth 8000 in
/-- C4: with a PA-ETYPE-INFO2 entry followed by a PA-PW-SALT entry, the
guard variable paID is never raised, so the later lower-numbered
PA-PW-SALT entry is still applied: its salt "SECOND" overrides the
ETYPE-INFO2 salt "FIRST" and the key is derived with salt "SECOND". -/
theorem c4_pwsalt_overrides_info2 :
    paLoop 18 0 .aes256 [] (defaultS2KParams .aes256) c4pas =
      some (.ok (.aes256, saltSECOND, [0, 0, 0, 1]))
    ∧ GetKeyFromPassword c4pw c4cn c4realm 18 c4pas =
        some (.ok ({ keyType := 18, keyValue := c4key32 }, .aes256))
    ∧ stringToKey .aes256 c4pw saltSECOND [0, 0, 0, 1] = .ok c4key32
    ∧ stringToKey .aes256 c4pw saltFIRST [0, 0, 0, 1] ≠ .ok c4key32 :=
  ⟨by decide,
   GetKeyFromPassword_via c4pw c4cn c4realm 18 c4pas .aes256 .aes256 saltSECOND [0, 0, 0, 1] c4key32
     (by decide) (by decide)
     ((stringToKey_via .aes256 c4pw _ [0, 0, 0, 1] tkSECOND (by decide) (by decide)
        (by decide)).trans (by decide)),
   (stringToKey_via .aes256 c4pw saltSECOND [0, 0, 0, 1] tkSECOND (by decide) (by decide)
      (by decide)).trans (by decide),
   fun h => absurd ((stringToKey_via .aes256 c4pw saltFIRST [0, 0, 0, 1] tkFIRST (by decide)
      (by decide) (by decide)).symm.trans h) (by decide)⟩

set_option maxRecDepth 8000 in
/-- C5: requesting enctype 18 while the PA-ETYPE-INFO2 entry switches the
working enctype to 17 yields a key whose KeyType field still carries 18
but whose value has the 16 bytes of AES128, not the 32 bytes declared by the
enctype that KeyType names — invariant I1 is violated. -/
theorem c5_keytype_mismatch :
    GetKeyFromPassword c4pw c4cn c4realm 18 c5pas =
      some (.ok ({ keyType := 18, keyValue := c5key16 }, .aes128))
    ∧ c5key16.length = 16
    ∧ GetEtype 18 = .ok .aes256
    ∧ keyByteSize .aes256 = 32
    ∧ c5key16.length ≠ keyByteSize .aes256 :=
  ⟨GetKeyFromPassword_via c4pw c4cn c4realm 18 c5pas .aes256 .aes128 c5salt [0, 0, 0, 1] c5key16
     (by decide) (by decide)
     ((stringToKey_via .aes128 c4pw _ [0, 0, 0, 1] tkC5 (by decide) (by decide)
        (by decide)).trans (by decide)),
   by decide, by decide, by decide, by decide⟩

set_option maxRecDepth 8000 in
/-- C6: at usage 0 decryption does not invert encryption: the
EncryptedData produced by GetEncryptedData at usage 0 makes
DecryptEncPart fail with the integrity error, because DecryptEncPart
always derives Ke while GetEncryptedData used the key directly. -/
theorem c6_usage0_roundtrip_fails :
    GetEncryptedData pt16 kt17 0 1 conf16 = .ok { etype := 17, kvno := 1, cipher := cipher0pt16 }
    ∧ DecryptEncPart kt17.keyValue { etype := 17, kvno := 1, cipher := cipher0pt16 } .aes128 0 =
        some (.error "Error decrypting encrypted part: integrity verification failed") :=
  ⟨by decide,
   DecryptEncPart_error_of kt17.keyValue { etype := 17, kvno := 1, cipher := cipher0pt16 } .aes128 0
     ke0 bGarb (by decide) (by decide) (by decide)
     ((VerifyIntegrity_via kt17.keyValue cipher0pt16 bGarb 0 .aes128 kiZero (by decide)
        (by decide)).trans (by decide))⟩

set_option maxRecDepth 2000 in
/-- Witness for C7: principal "user" in realm "EXAMPLE.COM" with no
PA-DATA gives string-to-key the default salt "EXAMPLE.COMuser". -/
theorem c7_default_salt_witness :
    GetEtype 17 = .ok .aes128
    ∧ paLoop 17 0 .aes128 [] (defaultS2KParams .aes128) [] =
        some (.ok (.aes128, [], defaultS2KParams .aes128))
    ∧ GetKeyFromPassword c4pw c4cn c4realm 17 [] =
        (match stringToKey .aes128 c4pw (c4realm ++ c4cn.nameString.flatten)
              (defaultS2KParams .aes128) with
         | .error e => some (.error ("Error deriving key from string: " ++ e))
         | .ok k => some (.ok ({ keyType := 17, keyValue := k }, .aes128)))
    ∧ c4realm ++ c4cn.nameString.flatten = c5salt :=
  ⟨by decide, by decide,
   c7_default_salt c4pw c4cn c4realm 17 [] .aes128 .aes128 (defaultS2KParams .aes128)
     (by decide) (by decide),
   by decide⟩

set_option maxRecDepth 2000 in
/-- Witness for C8: a session-less client fails before sending; a failing
exchange leaves the cache unchanged; a successful one appends exactly one
entry and keeps the session. -/
theorem c8_tgs_session_cache_witness :
    clNone.session = none
    ∧ TGSExchange tgsEnvOk clNone c4cn false =
        (.error (.msg "Error client does not have a session. Client needs to login first"), [])
    ∧ (GetServiceTicket tgsEnvBad clS [72]).1 = .error (.msg "Error generating New TGS_REQ")
    ∧ (GetServiceTicket tgsEnvBad clS [72]).2 = clS
    ∧ (GetServiceTicket tgsEnvOk clS [72]).1 = .ok ()
    ∧ (∃ en, (GetServiceTicket tgsEnvOk clS [72]).2.cache = clS.cache ++ [en])
    ∧ (GetServiceTicket tgsEnvOk clS [72]).2.session = clS.session :=
  ⟨by decide,
   (c8_tgs_session_cache tgsEnvOk clNone [72] c4cn false).1 (by decide),
   by decide,
   (c8_tgs_session_cache tgsEnvBad clS [72] c4cn false).2.1
     (.msg "Error generating New TGS_REQ") (by decide),
   by decide,
   ((c8_tgs_session_cache tgsEnvOk clS [72] c4cn false).2.2 (by decide)).1,
   ((c8_tgs_session_cache tgsEnvOk clS [72] c4cn false).2.2 (by decide)).2⟩

set_option maxRecDepth 2000 in
/-- Witness for C9: the toy decoder scenario exercises both the rejection
of a wrong msg-type and the successful field copy. -/
theorem c9_apreq_unmarshal_witness :
    c9dec [0] = .ok c9m
    ∧ c9m.msgType = KRB_AP_REQ
    ∧ c9decT c9m.ticketBytes = .ok c1Tkt
    ∧ APReqUnmarshal c9dec c9decT [0] =
        .ok { pvno := c9m.pvno, msgType := c9m.msgType, apOptions := c9m.apOptions,
              ticket := c1Tkt, authenticator := c9m.authenticator }
    ∧ c9dec [1] = .ok c9mBad
    ∧ c9mBad.msgType ≠ KRB_AP_REQ
    ∧ (∃ e, APReqUnmarshal c9dec c9decT [1] = .error e) :=
  ⟨by decide, by decide, by decide,
   (c9_apreq_unmarshal c9dec c9decT [0] c9m (by decide)).2 (by decide) c1Tkt (by decide),
   by decide, by decide,
   (c9_apreq_unmarshal c9dec c9decT [1] c9mBad (by decide)).1 (by decide)⟩

set_option maxRecDepth 8000 in
/-- Witness for C10: a 12-byte cipher is processed without a panic, and a
5-byte cipher (with the key derivation succeeding) panics rather than
returning an error. -/
theorem c10_decrypt_slicing_witness :
    12 ≤ (List.replicate 12 0 : List Nat).length
    ∧ (DecryptEncPart kt17.keyValue { etype := 17, kvno := 1, cipher := List.replicate 12 0 }
        .aes128 5).isSome = true
    ∧ etypeDeriveKey .aes128 kt17.keyValue (GetUsageKe 5) = .ok keC3
    ∧ ([1, 2, 3, 4, 5] : List Nat).length < 12
    ∧ DecryptEncPart kt17.keyValue { etype := 17, kvno := 1, cipher := [1, 2, 3, 4, 5] }
        .aes128 5 = none :=
  ⟨by decide,
   (c10_decrypt_slicing .aes128 kt17.keyValue { etype := 17, kvno := 1, cipher := List.replicate 12 0 } 5).1
     (by decide),
   by decide, by decide,
   (c10_decrypt_slicing .aes128 kt17.keyValue { etype := 17, kvno := 1, cipher := [1, 2, 3, 4, 5] } 5).2
     keC3 (by decide) (by decide)⟩
